import Mathlib

/-!
Shallow embedding of the GP0 command-stream decoder of `ps1-core`
(`src/ps1-core/src/gpu/gp0.rs`): the Gp0 state machine, command
classification, parameter accumulation, VRAM blits and the settings
commands, together with theorems about the embedded definitions.

Machine integers are embedded as `Nat` (unsigned) / `Int` (signed), with
explicit `% 2^w` where the Rust code relies on wrapping; `u32::bit(i)` is
`Nat.testBit`; Rust `panic!` / `todo!` / `unreachable!` is `Option.none`.
Rust `match` on integer scrutinees is rendered as a sequential
if-then-else chain, which has the same semantics.
-/

namespace PS1

/-- `Vertex` from gp0.rs: a pair of signed (`i32`) screen coordinates. -/
structure Vertex where
  x : Int
  y : Int
deriving DecidableEq, Repr

/-- `Color` from gp0.rs: three `u8` components, embedded as `Nat` values < 256. -/
structure Color where
  r : Nat
  g : Nat
  b : Nat
deriving DecidableEq, Repr

/-- `PolygonVertices` from gp0.rs. -/
inductive PolygonVertices where
  | Three
  | Four
deriving DecidableEq, Repr

/-- `PolygonVertices::from_bit`. -/
def PolygonVertices.from_bit (bit : Bool) : PolygonVertices :=
  if bit then .Four else .Three

/-- `impl From<PolygonVertices> for u8`. -/
def PolygonVertices.toNat : PolygonVertices → Nat
  | .Three => 3
  | .Four => 4

/-- `RectangleSize` from gp0.rs. -/
inductive RectangleSize where
  | Variable
  | One
  | Eight
  | Sixteen
deriving DecidableEq, Repr

/-- `RectangleSize::from_bits`: dispatch on `bits & 3`
(the final arm covers the literal `3`; values `≥ 4` cannot occur). -/
def RectangleSize.from_bits (bits : Nat) : RectangleSize :=
  if bits &&& 3 = 0 then .Variable
  else if bits &&& 3 = 1 then .One
  else if bits &&& 3 = 2 then .Eight
  else .Sixteen

/-- `LineCommandParameters` from gp0.rs. -/
structure LineCommandParameters where
  gouraud_shading : Bool
  polyline : Bool
  semi_transparent : Bool
  color : Color
deriving DecidableEq, Repr

/-- `PolygonCommandParameters` from gp0.rs. -/
structure PolygonCommandParameters where
  vertices : PolygonVertices
  gouraud_shading : Bool
  textured : Bool
  semi_transparent : Bool
  raw_texture : Bool
  color : Color
deriving DecidableEq, Repr

/-- `RectangleCommandParameters` from gp0.rs. -/
structure RectangleCommandParameters where
  size : RectangleSize
  textured : Bool
  semi_transparent : Bool
  raw_texture : Bool
  color : Color
deriving DecidableEq, Repr

/-- `DrawCommand` from gp0.rs. -/
inductive DrawCommand where
  | Fill (color : Color)
  | DrawLine (p : LineCommandParameters)
  | DrawPolygon (p : PolygonCommandParameters)
  | DrawRectangle (p : RectangleCommandParameters)
  | VramToVramBlit
  | CpuToVramBlit
  | VramToCpuBlit
deriving DecidableEq, Repr

/-- `VramTransferFields` from gp0.rs (all fields `u32`). -/
structure VramTransferFields where
  destination_x : Nat
  destination_y : Nat
  x_size : Nat
  y_size : Nat
  row : Nat
  col : Nat
deriving DecidableEq, Repr

/-- `IncrementEffect` from gp0.rs. -/
inductive IncrementEffect where
  | None
  | Finished
deriving DecidableEq, Repr

/-- `VramTransferFields::vram_addr`: byte address of the cursor cell,
`x` wrapped with `& 0x3FF` and `y` with `& 0x1FF`, 2 bytes per pixel,
2048 bytes per VRAM row. -/
def VramTransferFields.vram_addr (f : VramTransferFields) : Nat :=
  2048 * ((f.destination_y + f.row) &&& 0x1FF) + 2 * ((f.destination_x + f.col) &&& 0x3FF)

/-- `VramTransferFields::increment`: advance the cursor one pixel in raster
order; returns the mutated fields together with the `IncrementEffect`. -/
def VramTransferFields.increment (f : VramTransferFields) :
    VramTransferFields × IncrementEffect :=
  let col := f.col + 1
  if col = f.x_size then
    let row := f.row + 1
    if row = f.y_size then ({ f with col := 0, row := row }, .Finished)
    else ({ f with col := 0, row := row }, .None)
  else ({ f with col := col }, .None)

/-- `Gp0CommandState` from gp0.rs. -/
inductive Gp0CommandState where
  | WaitingForCommand
  | WaitingForParameters (command : DrawCommand) (index : Nat) (remaining : Nat)
  | WaitingForPolyline (p : LineCommandParameters)
  | ReceivingFromCpu (fields : VramTransferFields)
  | SendingToCpu (fields : VramTransferFields)
deriving DecidableEq, Repr

/-- `parse_command_color`: `u8` truncations of the low three bytes. -/
def parse_command_color (value : Nat) : Color :=
  { r := value % 256, g := (value >>> 8) % 256, b := (value >>> 16) % 256 }

namespace Gp0CommandState

/-- `Gp0CommandState::VRAM_TO_VRAM_BLIT`. -/
def VRAM_TO_VRAM_BLIT : Gp0CommandState :=
  .WaitingForParameters .VramToVramBlit 0 3

/-- `Gp0CommandState::CPU_TO_VRAM_BLIT`. -/
def CPU_TO_VRAM_BLIT : Gp0CommandState :=
  .WaitingForParameters .CpuToVramBlit 0 2

/-- `Gp0CommandState::VRAM_TO_CPU_BLIT`. -/
def VRAM_TO_CPU_BLIT : Gp0CommandState :=
  .WaitingForParameters .VramToCpuBlit 0 2

/-- `Gp0CommandState::fill`. -/
def fill (value : Nat) : Gp0CommandState :=
  .WaitingForParameters (.Fill (parse_command_color value)) 0 2

/-- `Gp0CommandState::draw_line`: classify a line command word; 2 parameters
plus 1 when Gouraud-shaded. -/
def draw_line (value : Nat) : Gp0CommandState :=
  let gouraud_shading := value.testBit 28
  let polyline := value.testBit 27
  let semi_transparent := value.testBit 25
  let parameters := 2 + (if gouraud_shading then 1 else 0)
  .WaitingForParameters
    (.DrawLine
      { gouraud_shading := gouraud_shading, polyline := polyline,
        semi_transparent := semi_transparent, color := parse_command_color value })
    0 parameters

/-- `Gp0CommandState::draw_polygon`: classify a polygon command word;
`vertex_count * (1 + textured) + (vertex_count - 1) * gouraud` parameters. -/
def draw_polygon (value : Nat) : Gp0CommandState :=
  let gouraud_shading := value.testBit 28
  let vertices := PolygonVertices.from_bit (value.testBit 27)
  let textured := value.testBit 26
  let semi_transparent := value.testBit 25
  let raw_texture := value.testBit 24
  let color := parse_command_color value
  let vertex_count := vertices.toNat
  let parameters := vertex_count * (1 + (if textured then 1 else 0))
      + (vertex_count - 1) * (if gouraud_shading then 1 else 0)
  .WaitingForParameters
    (.DrawPolygon
      { vertices := vertices, gouraud_shading := gouraud_shading, textured := textured,
        semi_transparent := semi_transparent, raw_texture := raw_texture, color := color })
    0 parameters

/-- `Gp0CommandState::draw_rectangle`: classify a rectangle command word;
`1 + textured + (size == Variable)` parameters. -/
def draw_rectangle (value : Nat) : Gp0CommandState :=
  let size := RectangleSize.from_bits (value >>> 27)
  let textured := value.testBit 26
  let semi_transparent := value.testBit 25
  let raw_texture := value.testBit 24
  let color := parse_command_color value
  let parameters := 1 + (if textured then 1 else 0) + (if size = RectangleSize.Variable then 1 else 0)
  .WaitingForParameters
    (.DrawRectangle
      { size := size, textured := textured, semi_transparent := semi_transparent,
        raw_texture := raw_texture, color := color })
    0 parameters

end Gp0CommandState

/-- `SemiTransparencyMode` from gp0.rs. -/
inductive SemiTransparencyMode where
  | Average
  | Add
  | Subtract
  | AddQuarter
deriving DecidableEq, Repr

/-- `SemiTransparencyMode::from_bits` (dispatch on `bits & 3`). -/
def SemiTransparencyMode.from_bits (bits : Nat) : SemiTransparencyMode :=
  if bits &&& 3 = 0 then .Average
  else if bits &&& 3 = 1 then .Add
  else if bits &&& 3 = 2 then .Subtract
  else .AddQuarter

/-- `TextureColorDepthBits` from gp0.rs. -/
inductive TextureColorDepthBits where
  | Four
  | Eight
  | Fifteen
deriving DecidableEq, Repr

/-- `TextureColorDepthBits::from_bits`: setting 3 ("reserved") behaves as
setting 2 (15-bit). -/
def TextureColorDepthBits.from_bits (bits : Nat) : TextureColorDepthBits :=
  if bits &&& 3 = 0 then .Four
  else if bits &&& 3 = 1 then .Eight
  else .Fifteen

/-- `TexturePage` from gp0.rs. -/
structure TexturePage where
  x_base : Nat
  y_base : Nat
  semi_transparency_mode : SemiTransparencyMode
  color_depth : TextureColorDepthBits
  rectangle_x_flip : Bool
  rectangle_y_flip : Bool
deriving DecidableEq, Repr

/-- `TexturePage::from_command_word`. -/
def TexturePage.from_command_word (command : Nat) : TexturePage :=
  { x_base := command &&& 0xF,
    y_base := 256 * ((command >>> 4) &&& 1),
    semi_transparency_mode := SemiTransparencyMode.from_bits (command >>> 5),
    color_depth := TextureColorDepthBits.from_bits (command >>> 7),
    rectangle_x_flip := command.testBit 12,
    rectangle_y_flip := command.testBit 13 }

/-- `TexturePage::default()`. -/
def TexturePage.default : TexturePage :=
  { x_base := 0, y_base := 0, semi_transparency_mode := .Average,
    color_depth := .Four, rectangle_x_flip := false, rectangle_y_flip := false }

/-- `TextureWindow` from gp0.rs. -/
structure TextureWindow where
  x_mask : Nat
  y_mask : Nat
  x_offset : Nat
  y_offset : Nat
deriving DecidableEq, Repr

/-- `TextureWindow::from_command_word`. -/
def TextureWindow.from_command_word (command : Nat) : TextureWindow :=
  { x_mask := command &&& 0x1F,
    y_mask := (command >>> 5) &&& 0x1F,
    x_offset := (command >>> 10) &&& 0x1F,
    y_offset := (command >>> 15) &&& 0x1F }

/-- `TextureWindow::default()`. -/
def TextureWindow.default : TextureWindow :=
  { x_mask := 0, y_mask := 0, x_offset := 0, y_offset := 0 }

/-- `DrawSettings` from gp0.rs. -/
structure DrawSettings where
  drawing_in_display_allowed : Bool
  dithering_enabled : Bool
  draw_area_top_left : Nat × Nat
  draw_area_bottom_right : Nat × Nat
  draw_offset : Int × Int
  force_mask_bit : Bool
  check_mask_bit : Bool
deriving DecidableEq, Repr

/-- `DrawSettings::default()`. -/
def DrawSettings.default : DrawSettings :=
  { drawing_in_display_allowed := false, dithering_enabled := false,
    draw_area_top_left := (0, 0), draw_area_bottom_right := (0, 0),
    draw_offset := (0, 0), force_mask_bit := false, check_mask_bit := false }

/-- `PARAMETERS_LEN` from gp0.rs: capacity of the parameter buffer. -/
def PARAMETERS_LEN : Nat := 11

/-- `Gp0State` from gp0.rs. The fixed `[u32; 11]` buffer is embedded as a
total function on indices; only indices `< PARAMETERS_LEN` are ever used,
and the store in the `WaitingForParameters` arm is bounds-checked like the
Rust array indexing (out of bounds = panic = `none`). -/
structure Gp0State where
  command_state : Gp0CommandState
  parameters : Nat → Nat
  global_texture_page : TexturePage
  texture_window : TextureWindow
  draw_settings : DrawSettings

/-- `Gp0State::new`. -/
def Gp0State.new : Gp0State :=
  { command_state := .WaitingForCommand,
    parameters := fun _ => 0,
    global_texture_page := TexturePage.default,
    texture_window := TextureWindow.default,
    draw_settings := DrawSettings.default }

/-!
Rasterizer-interface payload types. Their Rust definitions live in
`gpu/gp0/rasterize.rs`, which is not part of the sources at hand; their
shape is pinned by how `gp0.rs` constructs and matches them.
-/

/-- Modelled from the spec: `LineShading` of the rasterizer interface —
flat (one color) or Gouraud (one color per endpoint), exactly as
constructed in `parse_draw_line_parameters` and matched in
`Gpu::draw_line`. -/
inductive LineShading where
  | Flat (color : Color)
  | Gouraud (first second : Color)
deriving DecidableEq, Repr

/-- Modelled from the spec: `PolygonShading` of the rasterizer interface —
flat or one color per triangle vertex, as constructed in
`parse_draw_polygon_parameters`. -/
inductive PolygonShading where
  | Flat (color : Color)
  | Gouraud (c0 c1 c2 : Color)
deriving DecidableEq, Repr

/-- Modelled from the spec: `TextureMode` of the rasterizer interface
(§4.4: texture mapping is absent, raw, or modulated). Only constructed,
never inspected, by the embedded code. -/
inductive TextureMode where
  | Disabled
  | Raw
  | Modulated
deriving DecidableEq, Repr

/-- Modelled from the spec: `TextureMode::from_polygon_params` — texture
mode from the textured / raw-texture flag bits. -/
def TextureMode.from_polygon_params (p : PolygonCommandParameters) : TextureMode :=
  if p.textured then (if p.raw_texture then .Raw else .Modulated) else .Disabled

/-- Modelled from the spec: `TextureMode::from_rectangle_params`. -/
def TextureMode.from_rectangle_params (p : RectangleCommandParameters) : TextureMode :=
  if p.textured then (if p.raw_texture then .Raw else .Modulated) else .Disabled

/-- Modelled from the spec: `DrawLineParameters` of the rasterizer
interface, as constructed in `parse_draw_line_parameters`. -/
structure DrawLineParameters where
  vertices : Vertex × Vertex
  shading : LineShading
  semi_transparent : Bool
deriving DecidableEq, Repr

/-- Modelled from the spec: `PolygonTextureParameters` of the rasterizer
interface, as constructed in `parse_draw_polygon_parameters`. -/
structure PolygonTextureParameters where
  texpage : TexturePage
  clut_x : Nat
  clut_y : Nat
  u : Nat × Nat × Nat
  v : Nat × Nat × Nat
deriving DecidableEq, Repr

/-- Modelled from the spec: `DrawPolygonParameters` of the rasterizer
interface (one triangle dispatch). -/
structure DrawPolygonParameters where
  vertices : Vertex × Vertex × Vertex
  shading : PolygonShading
  semi_transparent : Bool
  texture_params : PolygonTextureParameters
  texture_mode : TextureMode
deriving DecidableEq, Repr

/-- Modelled from the spec: `RectangleTextureParameters` of the rasterizer
interface. -/
structure RectangleTextureParameters where
  clut_x : Nat
  clut_y : Nat
  u : Nat
  v : Nat
deriving DecidableEq, Repr

/-- Modelled from the spec: `RectangleTextureParameters::default()`. -/
def RectangleTextureParameters.default : RectangleTextureParameters :=
  { clut_x := 0, clut_y := 0, u := 0, v := 0 }

/-- Modelled from the spec: `DrawRectangleParameters` of the rasterizer
interface. -/
structure DrawRectangleParameters where
  position : Vertex
  width : Nat
  height : Nat
  color : Color
  semi_transparent : Bool
  texture_params : RectangleTextureParameters
  texture_mode : TextureMode
deriving DecidableEq, Repr

/-- Modelled from the spec: one call into the Rasterizer Interface
(§6). The engine's calls to `rasterize::fill` / `line` / `triangle` /
`rectangle` are recorded as events in arrival order; the pixel-filling
algorithms themselves are out of scope (§1). -/
inductive DrawEvent where
  | fill (x y width height : Nat) (color : Color)
  | line (p : DrawLineParameters)
  | triangle (p : DrawPolygonParameters)
  | rectangle (p : DrawRectangleParameters)
deriving DecidableEq, Repr

/-!  Field parsers from gp0.rs.  -/

/-- `parse_vram_position`. -/
def parse_vram_position (value : Nat) : Nat × Nat :=
  (value &&& 0x3FF, (value >>> 16) &&& 0x1FF)

/-- `parse_vram_size`: `u32::wrapping_sub(value, 1)` is `(value + 2^32 - 1) % 2^32`. -/
def parse_vram_size (value : Nat) : Nat × Nat :=
  ((((value + 0xFFFFFFFF) % 2 ^ 32) &&& 0x3FF) + 1,
   ((((value >>> 16) + 0xFFFFFFFF) % 2 ^ 32) &&& 0x1FF) + 1)

/-- Reinterpret the low 32 bits of a `Nat` as an `i32` (`value as i32`). -/
def u32_to_i32 (n : Nat) : Int :=
  if n % 2 ^ 32 < 2 ^ 31 then (n % 2 ^ 32 : Nat) else (n % 2 ^ 32 : Nat) - 2 ^ 32

/-- `parse_signed_11_bit`: `((word as i32) << 21) >> 21`. The `i32` left
shift keeps the low 32 bits of `word * 2^21`; the arithmetic right shift
is floor division by `2^21`. -/
def parse_signed_11_bit (word : Nat) : Int :=
  (u32_to_i32 ((word <<< 21) % 2 ^ 32)).fdiv (2 ^ 21)

/-- `parse_vertex_coordinates`: signed 11-bit X in the low halfword,
signed 11-bit Y in the high halfword. -/
def parse_vertex_coordinates (parameter : Nat) : Vertex :=
  { x := parse_signed_11_bit parameter, y := parse_signed_11_bit (parameter >>> 16) }

/-- `parse_draw_line_parameters`: reads the accumulated parameter words in
order — vertex 0, the second color when Gouraud-shaded, then vertex 1
(`Gp0Parameters::next` is sequential indexing into the buffer). -/
def parse_draw_line_parameters (command_parameters : LineCommandParameters)
    (parameters : Nat → Nat) : DrawLineParameters :=
  let v0 := parse_vertex_coordinates (parameters 0)
  if command_parameters.gouraud_shading then
    let second_color := parse_command_color (parameters 1)
    { vertices := (v0, parse_vertex_coordinates (parameters 2)),
      shading := .Gouraud command_parameters.color second_color,
      semi_transparent := command_parameters.semi_transparent }
  else
    { vertices := (v0, parse_vertex_coordinates (parameters 1)),
      shading := .Flat command_parameters.color,
      semi_transparent := command_parameters.semi_transparent }

/-- Pointwise update of a buffer embedded as a total function. -/
def updF {α : Type} (f : Nat → α) (i : Nat) (x : α) : Nat → α :=
  fun j => if j = i then x else f j

/-- Loop state of `parse_draw_polygon_parameters`: the position of the
sequential `Gp0Parameters` reader plus the local arrays being filled. -/
structure PolyAcc where
  pidx : Nat
  vertices : Nat → Vertex
  colors : Nat → Color
  u : Nat → Nat
  v : Nat → Nat
  clut_x : Nat
  clut_y : Nat
  texpage : TexturePage

/-- One iteration of the vertex loop in `parse_draw_polygon_parameters`:
optional Gouraud color word (skipped for vertex 0), the vertex word, and
for textured polygons the U/V word whose high half also carries the CLUT
(vertex 0) or the texture page (vertex 1). -/
def polyVertexStep (cp : PolygonCommandParameters) (params : Nat → Nat)
    (acc : PolyAcc) (vertex_idx : Nat) : PolyAcc :=
  let acc :=
    if vertex_idx ≠ 0 ∧ cp.gouraud_shading then
      { acc with colors := updF acc.colors vertex_idx (parse_command_color (params acc.pidx)),
                 pidx := acc.pidx + 1 }
    else acc
  let acc :=
    { acc with vertices := updF acc.vertices vertex_idx (parse_vertex_coordinates (params acc.pidx)),
               pidx := acc.pidx + 1 }
  if cp.textured then
    let word := params acc.pidx
    let acc :=
      if vertex_idx = 0 then
        { acc with clut_x := (word >>> 16) &&& 0x3F, clut_y := (word >>> 22) &&& 0x1FF }
      else if vertex_idx = 1 then
        { acc with texpage := TexturePage.from_command_word (word >>> 16) }
      else acc
    { acc with u := updF acc.u vertex_idx (word % 256),
               v := updF acc.v vertex_idx ((word >>> 8) % 256),
               pidx := acc.pidx + 1 }
  else acc

/-- `parse_draw_polygon_parameters`: decode the accumulated words into one
triangle dispatch, plus a second one reusing vertices/colors 1–3 for a
4-vertex command. -/
def parse_draw_polygon_parameters (cp : PolygonCommandParameters)
    (params : Nat → Nat) : DrawPolygonParameters × Option DrawPolygonParameters :=
  let init : PolyAcc :=
    { pidx := 0,
      vertices := fun _ => { x := 0, y := 0 },
      colors := updF (fun _ => { r := 0, g := 0, b := 0 }) 0 cp.color,
      u := fun _ => 0, v := fun _ => 0,
      clut_x := 0, clut_y := 0, texpage := TexturePage.default }
  let acc := (List.range cp.vertices.toNat).foldl (polyVertexStep cp params) init
  let texture_mode := TextureMode.from_polygon_params cp
  let first_parameters : DrawPolygonParameters :=
    { vertices := (acc.vertices 0, acc.vertices 1, acc.vertices 2),
      shading :=
        if cp.gouraud_shading then .Gouraud (acc.colors 0) (acc.colors 1) (acc.colors 2)
        else .Flat (acc.colors 0),
      semi_transparent := cp.semi_transparent,
      texture_params :=
        { texpage := acc.texpage, clut_x := acc.clut_x, clut_y := acc.clut_y,
          u := (acc.u 0, acc.u 1, acc.u 2), v := (acc.v 0, acc.v 1, acc.v 2) },
      texture_mode := texture_mode }
  match cp.vertices with
  | .Three => (first_parameters, none)
  | .Four =>
    let second_parameters : DrawPolygonParameters :=
      { vertices := (acc.vertices 1, acc.vertices 2, acc.vertices 3),
        shading :=
          if cp.gouraud_shading then .Gouraud (acc.colors 1) (acc.colors 2) (acc.colors 3)
          else .Flat (acc.colors 0),
        semi_transparent := cp.semi_transparent,
        texture_params :=
          { texpage := acc.texpage, clut_x := acc.clut_x, clut_y := acc.clut_y,
            u := (acc.u 1, acc.u 2, acc.u 3), v := (acc.v 1, acc.v 2, acc.v 3) },
        texture_mode := texture_mode }
    (first_parameters, some second_parameters)

/-- `parse_draw_rectangle_parameters`. -/
def parse_draw_rectangle_parameters (cp : RectangleCommandParameters)
    (params : Nat → Nat) : DrawRectangleParameters :=
  let position := parse_vertex_coordinates (params 0)
  let pidx := 1
  let (texture_params, pidx) :=
    if cp.textured then
      (({ clut_x := (params pidx >>> 16) &&& 0x3FF, clut_y := (params pidx >>> 22) &&& 0x1FF,
          u := params pidx % 256, v := (params pidx >>> 8) % 256 } : RectangleTextureParameters),
       pidx + 1)
    else (RectangleTextureParameters.default, pidx)
  let (width, height) :=
    match cp.size with
    | .One => (1, 1)
    | .Eight => (8, 8)
    | .Sixteen => (16, 16)
    | .Variable => (params pidx &&& 0x3FF, (params pidx >>> 16) &&& 0x1FF)
  { position := position, width := width, height := height, color := cp.color,
    semi_transparent := cp.semi_transparent, texture_params := texture_params,
    texture_mode := TextureMode.from_rectangle_params cp }

/-- Modelled from the spec: the surrounding `Gpu` device (its struct lives
in `gpu/mod.rs`, outside the sources at hand). It owns the `Gp0State` and
the shared VRAM buffer — a flat byte array, 2 bytes per pixel, 2048-byte
row stride (§6) — and every call it makes into the Rasterizer Interface is
recorded in `draw_log` in arrival order. -/
structure Gpu where
  gp0 : Gp0State
  vram : Nat → Nat
  draw_log : List DrawEvent

/-- Replace the command state (`self.gp0.command_state = ...`). -/
def Gpu.set_state (gpu : Gpu) (s : Gp0CommandState) : Gpu :=
  { gpu with gp0 := { gpu.gp0 with command_state := s } }

/-- `self.gp0.parameters[i] = value` (bounds handled at the call sites). -/
def Gpu.set_param (gpu : Gpu) (i value : Nat) : Gpu :=
  { gpu with gp0 := { gpu.gp0 with parameters := updF gpu.gp0.parameters i value } }

/-- Write one 16-bit halfword into VRAM as two little-endian bytes
(`vram[addr] = h as u8; vram[addr + 1] = (h >> 8) as u8`). -/
def writeHalfword (vram : Nat → Nat) (addr h : Nat) : Nat → Nat :=
  fun a => if a = addr then h % 256 else if a = addr + 1 then (h >>> 8) % 256 else vram a

/-- `Gpu::vram_fill`: decode position/size from the two parameter words and
call `rasterize::fill`. -/
def Gpu.vram_fill (gpu : Gpu) (color : Color) : Gpu :=
  let x := gpu.gp0.parameters 0 &&& 0xFFFF
  let y := gpu.gp0.parameters 0 >>> 16
  let width := gpu.gp0.parameters 1 &&& 0xFFFF
  let height := gpu.gp0.parameters 1 >>> 16
  { gpu with draw_log := gpu.draw_log ++ [.fill x y width height color] }

/-- `Gpu::draw_line`: parse the accumulated words, call `rasterize::line`,
and for a polyline rewrite parameter word 0 to the decoded second vertex
and carry the second color into `WaitingForPolyline`. -/
def Gpu.draw_line (gpu : Gpu) (command_parameters : LineCommandParameters) :
    Gpu × Gp0CommandState :=
  let parameters := parse_draw_line_parameters command_parameters gpu.gp0.parameters
  let v1 := parameters.vertices.2
  let shading := parameters.shading
  let gpu := { gpu with draw_log := gpu.draw_log ++ [.line parameters] }
  if command_parameters.polyline then
    let gpu := gpu.set_param 0 ((v1.x % 65536 + 65536 * (v1.y % 65536)).toNat)
    let new_first_color :=
      match shading with
      | .Flat color => color
      | .Gouraud _ color => color
    (gpu, .WaitingForPolyline { command_parameters with color := new_first_color })
  else (gpu, .WaitingForCommand)

/-- `Gpu::draw_polygon`: one or two `rasterize::triangle` calls. -/
def Gpu.draw_polygon (gpu : Gpu) (command_parameters : PolygonCommandParameters) : Gpu :=
  let (first_params, second_params) :=
    parse_draw_polygon_parameters command_parameters gpu.gp0.parameters
  let gpu := { gpu with draw_log := gpu.draw_log ++ [.triangle first_params] }
  match second_params with
  | some p => { gpu with draw_log := gpu.draw_log ++ [.triangle p] }
  | none => gpu

/-- `Gpu::draw_rectangle`. -/
def Gpu.draw_rectangle (gpu : Gpu) (command_parameters : RectangleCommandParameters) : Gpu :=
  let parameters := parse_draw_rectangle_parameters command_parameters gpu.gp0.parameters
  { gpu with draw_log := gpu.draw_log ++ [.rectangle parameters] }

/-- `Gpu::execute_vram_copy`: nested row/column copy loops with the same
coordinate wrapping and byte-by-byte copy order as the source (the second
byte of a pixel is read after the first byte has been written). -/
def Gpu.execute_vram_copy (gpu : Gpu) : Gpu :=
  let source_x_base := gpu.gp0.parameters 0 &&& 0x3FF
  let source_y0 := (gpu.gp0.parameters 0 >>> 16) &&& 0x1FF
  let dest_x_base := gpu.gp0.parameters 1 &&& 0x3FF
  let dest_y0 := (gpu.gp0.parameters 1 >>> 16) &&& 0x1FF
  let width := (((gpu.gp0.parameters 2 + 0xFFFFFFFF) % 2 ^ 32) &&& 0x3FF) + 1
  let height := ((((gpu.gp0.parameters 2 >>> 16) + 0xFFFFFFFF) % 2 ^ 32) &&& 0x1FF) + 1
  let outer :=
    (List.range height).foldl
      (fun (st : (Nat → Nat) × Nat × Nat) _ =>
        let (vram, source_y, dest_y) := st
        let inner :=
          (List.range width).foldl
            (fun (st2 : (Nat → Nat) × Nat × Nat) _ =>
              let (vram2, source_x, dest_x) := st2
              let source_addr := 2048 * source_y + 2 * source_x
              let dest_addr := 2048 * dest_y + 2 * dest_x
              let vramA := fun a => if a = dest_addr then vram2 source_addr else vram2 a
              let vramB := fun a => if a = dest_addr + 1 then vramA (source_addr + 1) else vramA a
              (vramB, (source_x + 1) &&& 0x3FF, (dest_x + 1) &&& 0x3FF))
            (vram, source_x_base, dest_x_base)
        (inner.1, (source_y + 1) &&& 0x1FF, (dest_y + 1) &&& 0x1FF))
      (gpu.vram, source_y0, dest_y0)
  { gpu with vram := outer.1 }

/-- `Gpu::receive_vram_word_from_cpu`: unpack the word into two halfword
pixels (low first), write each at the cursor address, advance the cursor,
and stop — discarding the rest of the word — as soon as the cursor reports
completion. The two-iteration `for` loop is unrolled. -/
def Gpu.receive_vram_word_from_cpu (gpu : Gpu) (value : Nat)
    (fields : VramTransferFields) : Gpu × Gp0CommandState :=
  let gpu0 := { gpu with vram := writeHalfword gpu.vram fields.vram_addr (value &&& 0xFFFF) }
  let (fields1, effect1) := fields.increment
  if effect1 = .Finished then (gpu0, .WaitingForCommand)
  else
    let gpu1 := { gpu0 with vram := writeHalfword gpu0.vram fields1.vram_addr (value >>> 16) }
    let (fields2, effect2) := fields1.increment
    if effect2 = .Finished then (gpu1, .WaitingForCommand)
    else (gpu1, .ReceivingFromCpu fields2)

/-- `Gpu::read_vram_word_for_cpu`: pack two pixels read at the cursor into
one word (low halfword first), advancing the cursor after each pixel and
settling in `WaitingForCommand` when it reports completion. The
two-iteration `for` loop over the shifts `[0, 16]` is unrolled. -/
def Gpu.read_vram_word_for_cpu (gpu : Gpu) (fields : VramTransferFields) : Gpu × Nat :=
  let a0 := fields.vram_addr
  let word := gpu.vram a0 + 256 * gpu.vram (a0 + 1)
  let (fields1, effect1) := fields.increment
  if effect1 = .Finished then (gpu.set_state .WaitingForCommand, word)
  else
    let a1 := fields1.vram_addr
    let word := word ||| ((gpu.vram a1 + 256 * gpu.vram (a1 + 1)) <<< 16)
    let (fields2, effect2) := fields1.increment
    if effect2 = .Finished then (gpu.set_state .WaitingForCommand, word)
    else (gpu.set_state (.SendingToCpu fields2), word)

/-- `Gpu::execute_draw_command`: run a completed command against the
accumulated parameters; returns the mutated device and the next command
state. -/
def Gpu.execute_draw_command (gpu : Gpu) (command : DrawCommand) : Gpu × Gp0CommandState :=
  match command with
  | .Fill color => (gpu.vram_fill color, .WaitingForCommand)
  | .DrawLine p => gpu.draw_line p
  | .DrawPolygon p => (gpu.draw_polygon p, .WaitingForCommand)
  | .DrawRectangle p => (gpu.draw_rectangle p, .WaitingForCommand)
  | .VramToVramBlit => (gpu.execute_vram_copy, .WaitingForCommand)
  | .CpuToVramBlit =>
    let (destination_x, destination_y) := parse_vram_position (gpu.gp0.parameters 0)
    let (x_size, y_size) := parse_vram_size (gpu.gp0.parameters 1)
    (gpu, .ReceivingFromCpu
      { destination_x := destination_x, destination_y := destination_y,
        x_size := x_size, y_size := y_size, row := 0, col := 0 })
  | .VramToCpuBlit =>
    let (destination_x, destination_y) := parse_vram_position (gpu.gp0.parameters 0)
    let (x_size, y_size) := parse_vram_size (gpu.gp0.parameters 1)
    (gpu, .SendingToCpu
      { destination_x := destination_x, destination_y := destination_y,
        x_size := x_size, y_size := y_size, row := 0, col := 0 })

/-- `Gpu::execute_settings_command`: dispatch on the top 8 bits; `0xE1`–
`0xE6` each rewrite their own slice of the persistent settings; every
other code hits `todo!` (= `none`). -/
def Gpu.execute_settings_command (gpu : Gpu) (command : Nat) : Option Gpu :=
  if command >>> 24 = 0xE1 then
    some { gpu with gp0 :=
      { gpu.gp0 with
        global_texture_page := TexturePage.from_command_word command,
        draw_settings :=
          { gpu.gp0.draw_settings with
            drawing_in_display_allowed := command.testBit 10,
            dithering_enabled := command.testBit 9 } } }
  else if command >>> 24 = 0xE2 then
    some { gpu with gp0 :=
      { gpu.gp0 with texture_window := TextureWindow.from_command_word command } }
  else if command >>> 24 = 0xE3 then
    some { gpu with gp0 :=
      { gpu.gp0 with draw_settings :=
        { gpu.gp0.draw_settings with
          draw_area_top_left := (command &&& 0x3FF, (command >>> 10) &&& 0x1FF) } } }
  else if command >>> 24 = 0xE4 then
    some { gpu with gp0 :=
      { gpu.gp0 with draw_settings :=
        { gpu.gp0.draw_settings with
          draw_area_bottom_right := (command &&& 0x3FF, (command >>> 10) &&& 0x1FF) } } }
  else if command >>> 24 = 0xE5 then
    some { gpu with gp0 :=
      { gpu.gp0 with draw_settings :=
        { gpu.gp0.draw_settings with
          draw_offset := (parse_signed_11_bit command, parse_signed_11_bit (command >>> 11)) } } }
  else if command >>> 24 = 0xE6 then
    some { gpu with gp0 :=
      { gpu.gp0 with draw_settings :=
        { gpu.gp0.draw_settings with
          force_mask_bit := command.testBit 0,
          check_mask_bit := command.testBit 1 } } }
  else none

/-- `Gpu::handle_gp0_write`: the transition function of the engine, one
call per 32-bit word written to the GP0 port. `none` models a Rust
`panic!` / `todo!` (§7: fatal, non-recoverable). -/
def Gpu.handle_gp0_write (gpu : Gpu) (value : Nat) : Option Gpu :=
  match gpu.gp0.command_state with
  | .WaitingForCommand =>
    if value >>> 29 = 0 then
      if value >>> 24 = 0x00 then some (gpu.set_state .WaitingForCommand)
      else if value >>> 24 = 0x01 then some (gpu.set_state .WaitingForCommand)
      else if value >>> 24 = 0x02 then some (gpu.set_state (Gp0CommandState.fill value))
      else none
    else if value >>> 29 = 1 then some (gpu.set_state (Gp0CommandState.draw_polygon value))
    else if value >>> 29 = 2 then some (gpu.set_state (Gp0CommandState.draw_line value))
    else if value >>> 29 = 3 then some (gpu.set_state (Gp0CommandState.draw_rectangle value))
    else if value >>> 29 = 4 then some (gpu.set_state Gp0CommandState.VRAM_TO_VRAM_BLIT)
    else if value >>> 29 = 5 then some (gpu.set_state Gp0CommandState.CPU_TO_VRAM_BLIT)
    else if value >>> 29 = 6 then some (gpu.set_state Gp0CommandState.VRAM_TO_CPU_BLIT)
    else if value >>> 29 = 7 then
      (gpu.execute_settings_command value).map (·.set_state .WaitingForCommand)
    else none
  | .WaitingForParameters command index remaining =>
    if index < PARAMETERS_LEN then
      let gpu := gpu.set_param index value
      if remaining = 1 then
        let (gpu, st) := gpu.execute_draw_command command
        some (gpu.set_state st)
      else
        some (gpu.set_state (.WaitingForParameters command (index + 1) (remaining - 1)))
    else none
  | .WaitingForPolyline parameters =>
    if value &&& 0xF000F000 = 0x50005000 then
      some (gpu.set_state .WaitingForCommand)
    else
      let gpu := gpu.set_param 1 value
      if parameters.gouraud_shading then
        some (gpu.set_state (.WaitingForParameters (.DrawLine parameters) 2 1))
      else
        let (gpu, st) := gpu.draw_line parameters
        some (gpu.set_state st)
  | .ReceivingFromCpu fields =>
    let (gpu, st) := gpu.receive_vram_word_from_cpu value fields
    some (gpu.set_state st)
  | .SendingToCpu _ => none

/-- Modelled from the spec: a freshly constructed device — `Gp0State::new`
(which is in gp0.rs) plus an all-zero VRAM buffer and an empty dispatch
log. -/
def Gpu.init : Gpu :=
  { gp0 := Gp0State.new, vram := fun _ => 0, draw_log := [] }

/-- One externally driven step of the engine: a GP0 command-port write
that does not panic, or a GP0 read while a VRAM-to-CPU blit is active
(`Gpu::read_vram_word_for_cpu`). -/
inductive GpuStep : Gpu → Gpu → Prop
  | write (w : Nat) (g g' : Gpu) : g.handle_gp0_write w = some g' → GpuStep g g'
  | read (g : Gpu) (fields : VramTransferFields) :
      g.gp0.command_state = .SendingToCpu fields →
      GpuStep g (g.read_vram_word_for_cpu fields).1

/-- States of the device reachable from a fresh device. -/
def Reachable (g : Gpu) : Prop :=
  Relation.ReflTransGen GpuStep Gpu.init g

/-- Feed a list of words to the GP0 port in order, stopping at a panic. -/
def feedWords (gpu : Gpu) (ws : List Nat) : Option Gpu :=
  ws.foldl (fun og w => og.bind (fun g => g.handle_gp0_write w)) (some gpu)

/-! Arithmetic helper lemmas. -/


/-!  Specification-side parameter-count formulas and auxiliary
definitions used by the theorems below.  -/


/-- The closed-form polygon parameter count of §4.1, stated from the
command word's flag bits: `vertex_count × (1 + textured) +
(vertex_count − 1) × gouraud`. -/
def polygonParamCountFormula (value : Nat) : Nat :=
  (if value.testBit 27 then 4 else 3) * (1 + (if value.testBit 26 then 1 else 0)) +
    ((if value.testBit 27 then 4 else 3) - 1) * (if value.testBit 28 then 1 else 0)

/-- The closed-form rectangle parameter count of §4.1:
`1 + textured + (size_class == Variable)`. -/
def rectangleParamCountFormula (value : Nat) : Nat :=
  1 + (if value.testBit 26 then 1 else 0) +
    (if (value >>> 27) &&& 3 = 0 then 1 else 0)

/-- The spec's claimed parameter count for a polygon (family 001) or
rectangle (family 011) command word. -/
def claimedParamCount (value : Nat) : Nat :=
  if value >>> 29 = 1 then polygonParamCountFormula value else rectangleParamCountFormula value

/-- Total parameter count of a classified command (the closed-form counts
of §4.1, computed from the decoded flags the command carries). -/
def commandParamCount : DrawCommand → Nat
  | .Fill _ => 2
  | .DrawLine p => 2 + (if p.gouraud_shading then 1 else 0)
  | .DrawPolygon p =>
      p.vertices.toNat * (1 + (if p.textured then 1 else 0)) +
        (p.vertices.toNat - 1) * (if p.gouraud_shading then 1 else 0)
  | .DrawRectangle p =>
      1 + (if p.textured then 1 else 0) + (if p.size = RectangleSize.Variable then 1 else 0)
  | .VramToVramBlit => 3
  | .CpuToVramBlit => 2
  | .VramToCpuBlit => 2

/-- The parameter-accumulation invariant of the engine. -/
def ParamInv (g : Gpu) : Prop :=
  ∀ c i r, g.gp0.command_state = .WaitingForParameters c i r →
    i + r = commandParamCount c ∧ 1 ≤ r ∧ i + r ≤ 11

/-- Number of pixels the cursor has yet to consume. -/
def remainingPixels (f : VramTransferFields) : Nat :=
  (f.y_size - f.row) * f.x_size - f.col

/-- Count cursor increments (pixels) until `increment` reports `Finished`,
with explicit fuel. -/
def stepsToFinish : Nat → VramTransferFields → Option Nat
  | 0, _ => none
  | fuel + 1, f =>
    match f.increment with
    | (_, .Finished) => some 1
    | (f', .None) => (stepsToFinish fuel f').map (· + 1)

/-- Count 32-bit words until `Finished`, mirroring the two-pixels-per-word
loop of `receive_vram_word_from_cpu` / `read_vram_word_for_cpu`: each word
performs up to two increments and the transfer ends as soon as one of them
reports `Finished`. -/
def wordsToFinish : Nat → VramTransferFields → Option Nat
  | 0, _ => none
  | fuel + 1, f =>
    match f.increment with
    | (_, .Finished) => some 1
    | (f', .None) =>
      match f'.increment with
      | (_, .Finished) => some 1
      | (f'', .None) => (wordsToFinish fuel f'').map (· + 1)

def sendingGpu : Gpu :=
  { gp0 := { Gp0State.new with
      command_state := .SendingToCpu
        { destination_x := 0, destination_y := 0, x_size := 1, y_size := 1, row := 0, col := 0 } },
    vram := fun _ => 0, draw_log := [] }

/-- A device mid-way through a 2x2 CPU-to-VRAM blit at origin (0,0). -/
def recvGpu : Gpu :=
  { gp0 := { Gp0State.new with
      command_state := .ReceivingFromCpu
        { destination_x := 0, destination_y := 0, x_size := 2, y_size := 2, row := 0, col := 0 } },
    vram := fun _ => 0, draw_log := [] }

/-- A device one pixel away from completing a 1x1 CPU-to-VRAM blit. -/
def recvGpuLast : Gpu :=
  { gp0 := { Gp0State.new with
      command_state := .ReceivingFromCpu
        { destination_x := 0, destination_y := 0, x_size := 1, y_size := 1, row := 0, col := 0 } },
    vram := fun _ => 0, draw_log := [] }

/-- The state reached from a fresh device by one flat-triangle command word. -/
def triangleGpu : Gpu :=
  Gpu.init.set_state (Gp0CommandState.draw_polygon 0x20000000)


/-!  Helper lemmas.  -/


lemma and_mask_1023 (n : Nat) : n &&& 1023 = n % 1024 := by
  simpa using Nat.and_pow_two_sub_one_eq_mod n 10

lemma and_mask_511 (n : Nat) : n &&& 511 = n % 512 := by
  simpa using Nat.and_pow_two_sub_one_eq_mod n 9

lemma and_mask_3 (n : Nat) : n &&& 3 = n % 4 := by
  simpa using Nat.and_pow_two_sub_one_eq_mod n 2

lemma and_mask_65535 (n : Nat) : n &&& 65535 = n % 65536 := by
  simpa using Nat.and_pow_two_sub_one_eq_mod n 16

/-- Closed form of `parse_signed_11_bit`: sign extension of the low 11 bits. -/
lemma parse_signed_11_bit_eq (w : Nat) :
    parse_signed_11_bit w =
      if w % 2048 < 1024 then ((w % 2048 : Nat) : Int) else ((w % 2048 : Nat) : Int) - 2048 := by
  have hshift : (w <<< 21) % 2 ^ 32 = (w % 2 ^ 11) * 2 ^ 21 := by
    rw [Nat.shiftLeft_eq]
    calc w * 2 ^ 21 % 2 ^ 32 = w * 2 ^ 21 % (2 ^ 11 * 2 ^ 21) := by norm_num
    _ = w % 2 ^ 11 * 2 ^ 21 := Nat.mul_mod_mul_right (2 ^ 21) w (2 ^ 11)
  have hb : w % 2 ^ 11 < 2 ^ 11 := Nat.mod_lt _ (by norm_num)
  rw [parse_signed_11_bit, hshift]
  have hmod : (w % 2 ^ 11) * 2 ^ 21 % 2 ^ 32 = (w % 2 ^ 11) * 2 ^ 21 := by
    apply Nat.mod_eq_of_lt
    calc (w % 2 ^ 11) * 2 ^ 21 < 2 ^ 11 * 2 ^ 21 :=
          (Nat.mul_lt_mul_right (by norm_num)).mpr hb
    _ = 2 ^ 32 := by norm_num
  by_cases hlt : w % 2048 < 1024
  · have : (w % 2 ^ 11) * 2 ^ 21 % 2 ^ 32 < 2 ^ 31 := by
      rw [hmod]
      calc (w % 2 ^ 11) * 2 ^ 21 < 2 ^ 10 * 2 ^ 21 :=
            (Nat.mul_lt_mul_right (by norm_num)).mpr (by simpa using hlt)
      _ = 2 ^ 31 := by norm_num
    rw [u32_to_i32, if_pos this, hmod, if_pos hlt]
    push_cast
    exact Int.mul_fdiv_cancel _ (by norm_num)
  · have hge : ¬ ((w % 2 ^ 11) * 2 ^ 21 % 2 ^ 32 < 2 ^ 31) := by
      rw [hmod]
      push_neg at hlt ⊢
      calc (2 ^ 31 : Nat) = 2 ^ 10 * 2 ^ 21 := by norm_num
      _ ≤ (w % 2 ^ 11) * 2 ^ 21 := Nat.mul_le_mul_right _ (by simpa using hlt)
    rw [u32_to_i32, if_neg hge, hmod, if_neg hlt]
    have : ((w % 2 ^ 11) * 2 ^ 21 : Int) - 2 ^ 32 = (((w % 2 ^ 11) : Int) - 2 ^ 11) * 2 ^ 21 := by
      push_cast
      ring
    rw [show (((w % 2 ^ 11) * 2 ^ 21 : Nat) : Int) = ((w % 2 ^ 11 : Nat) : Int) * 2 ^ 21 by push_cast; ring]
    rw [show ((w % 2 ^ 11 : Nat) : Int) * 2 ^ 21 - 2 ^ 32 = (((w % 2 ^ 11 : Nat) : Int) - 2 ^ 11) * 2 ^ 21 by ring]
    rw [Int.mul_fdiv_cancel _ (by norm_num)]
    norm_num

lemma parse_signed_11_bit_range (w : Nat) :
    -1024 ≤ parse_signed_11_bit w ∧ parse_signed_11_bit w ≤ 1023 := by
  rw [parse_signed_11_bit_eq]
  have h := Nat.mod_lt w (show 0 < 2048 by norm_num)
  split <;> omega

lemma shr29_of_shr24 (w c : Nat) (h : w >>> 24 = c) : w >>> 29 = c >>> 5 := by
  have : w >>> 29 = (w >>> 24) >>> 5 := by
    rw [← Nat.shiftRight_add]
  rw [this, h]

lemma add_ffffffff_mod_1024 (v : Nat) : (v + 0xFFFFFFFF) % 1024 = (v + 1023) % 1024 := by
  conv_lhs => rw [show (0xFFFFFFFF : Nat) = 1023 + 1024 * 4194303 by norm_num]
  rw [← Nat.add_assoc, Nat.add_mul_mod_self_left]

lemma add_ffffffff_mod_512 (v : Nat) : (v + 0xFFFFFFFF) % 512 = (v + 511) % 512 := by
  conv_lhs => rw [show (0xFFFFFFFF : Nat) = 511 + 512 * 8388607 by norm_num]
  rw [← Nat.add_assoc, Nat.add_mul_mod_self_left]

lemma parse_vram_size_fst (v : Nat) : (parse_vram_size v).1 = (v + 1023) % 1024 + 1 := by
  rw [parse_vram_size, and_mask_1023]
  rw [Nat.mod_mod_of_dvd _ (by norm_num : (1024 : Nat) ∣ 2 ^ 32), add_ffffffff_mod_1024]

lemma parse_vram_size_snd (v : Nat) : (parse_vram_size v).2 = (v >>> 16 + 511) % 512 + 1 := by
  rw [parse_vram_size, and_mask_511]
  rw [Nat.mod_mod_of_dvd _ (by norm_num : (512 : Nat) ∣ 2 ^ 32), add_ffffffff_mod_512]

lemma repack_parse_lo (x y : Int) (h1 : -1024 ≤ x) (h2 : x ≤ 1023) :
    parse_signed_11_bit ((x % 65536 + 65536 * (y % 65536)).toNat) = x := by
  rw [parse_signed_11_bit_eq]
  split <;> omega

lemma repack_parse_hi (x y : Int) (h1 : -1024 ≤ y) (h2 : y ≤ 1023) :
    parse_signed_11_bit ((x % 65536 + 65536 * (y % 65536)).toNat >>> 16) = y := by
  rw [Nat.shiftRight_eq_div_pow, parse_signed_11_bit_eq]
  split <;> omega

/-- Re-parsing the repacked second polyline vertex recovers it. -/
lemma parse_vertex_repack (w : Nat) :
    parse_vertex_coordinates
      (((parse_vertex_coordinates w).x % 65536 +
        65536 * ((parse_vertex_coordinates w).y % 65536)).toNat) =
      parse_vertex_coordinates w := by
  have hx := parse_signed_11_bit_range w
  have hy := parse_signed_11_bit_range (w >>> 16)
  simp only [parse_vertex_coordinates, Vertex.mk.injEq]
  exact ⟨repack_parse_lo _ _ hx.1 hx.2, repack_parse_hi _ _ hy.1 hy.2⟩

lemma foldl_feed_none (ws : List Nat) :
    ws.foldl (fun og w => og.bind (fun g : Gpu => g.handle_gp0_write w)) none = none := by
  induction ws with
  | nil => rfl
  | cons w ws ih => simpa using ih

lemma feedWords_cons (g : Gpu) (w : Nat) (ws : List Nat) :
    feedWords g (w :: ws) = (g.handle_gp0_write w).bind (fun g' => feedWords g' ws) := by
  rcases h : g.handle_gp0_write w with _ | g'
  · simp [feedWords, List.foldl_cons, h, foldl_feed_none]
  · simp [feedWords, List.foldl_cons, h]

lemma feedWords_append_one (g : Gpu) (ws : List Nat) (w : Nat) :
    feedWords g (ws ++ [w]) = (feedWords g ws).bind (fun x => x.handle_gp0_write w) := by
  simp [feedWords, List.foldl_append]

/-- While more than one parameter word is missing, each word is stored at
`index` and the engine stays in `WaitingForParameters` with the command
unchanged. -/
lemma feed_accumulate (c : DrawCommand) (ws : List Nat) :
    ∀ (g : Gpu) (i r : Nat),
      g.gp0.command_state = .WaitingForParameters c i r →
      i + r ≤ 11 → ws.length < r →
      ∃ g', feedWords g ws = some g' ∧
        g'.gp0.command_state = .WaitingForParameters c (i + ws.length) (r - ws.length) := by
  induction ws with
  | nil => intro g i r hg _ _; exact ⟨g, by simp [feedWords], by simpa using hg⟩
  | cons w ws ih =>
    intro g i r hg hle hlen
    simp only [List.length_cons] at hlen
    have hi : i < PARAMETERS_LEN := by unfold PARAMETERS_LEN; omega
    have hr1 : ¬ (r = 1) := by omega
    have hstep : g.handle_gp0_write w =
        some ((g.set_param i w).set_state (.WaitingForParameters c (i + 1) (r - 1))) := by
      simp [Gpu.handle_gp0_write, hg, hi, hr1]
    obtain ⟨g', hf, hs⟩ := ih ((g.set_param i w).set_state (.WaitingForParameters c (i + 1) (r - 1)))
      (i + 1) (r - 1) (by simp [Gpu.set_state]) (by omega) (by omega)
    refine ⟨g', ?_, ?_⟩
    · rw [feedWords_cons, hstep]
      simpa using hf
    · rw [hs]
      simp only [List.length_cons]
      congr 1 <;> omega

/-- Storing the last missing parameter word executes the command. -/
lemma handle_last_param_exec (g : Gpu) (c : DrawCommand) (i w : Nat)
    (hg : g.gp0.command_state = .WaitingForParameters c i 1) (hi : i < PARAMETERS_LEN) :
    (g.handle_gp0_write w).map (fun x => x.gp0.command_state) =
      some ((g.set_param i w).execute_draw_command c).2 := by
  simp [Gpu.handle_gp0_write, hg, hi, Gpu.set_state]

lemma from_bit_toNat (b : Bool) : (PolygonVertices.from_bit b).toNat = if b then 4 else 3 := by
  cases b <;> rfl

lemma from_bits_variable_iff (b : Nat) : RectangleSize.from_bits b = .Variable ↔ b &&& 3 = 0 := by
  unfold RectangleSize.from_bits
  split_ifs <;> simp_all

lemma polygon_formula_bounds (w : Nat) :
    3 ≤ polygonParamCountFormula w ∧ polygonParamCountFormula w ≤ 11 := by
  unfold polygonParamCountFormula
  split_ifs <;> norm_num

lemma rectangle_formula_bounds (w : Nat) :
    1 ≤ rectangleParamCountFormula w ∧ rectangleParamCountFormula w ≤ 3 := by
  unfold rectangleParamCountFormula
  split_ifs <;> norm_num

lemma execute_result_not_waiting (g : Gpu) (c c' : DrawCommand) (i' r' : Nat) :
    (g.execute_draw_command c).2 ≠ .WaitingForParameters c' i' r' := by
  cases c <;> simp [Gpu.execute_draw_command, Gpu.draw_line]
  split <;> simp

lemma read_result_not_waiting (g : Gpu) (fields : VramTransferFields)
    (c : DrawCommand) (i r : Nat) :
    ((g.read_vram_word_for_cpu fields).1).gp0.command_state ≠
      .WaitingForParameters c i r := by
  rcases hinc : fields.increment with ⟨f1, e1⟩
  rcases hinc2 : f1.increment with ⟨f2, e2⟩
  cases e1 <;> cases e2 <;>
    simp [Gpu.read_vram_word_for_cpu, hinc, hinc2, Gpu.set_state]

lemma receive_result_not_waiting (g : Gpu) (v : Nat) (fields : VramTransferFields)
    (c : DrawCommand) (i r : Nat) :
    (g.receive_vram_word_from_cpu v fields).2 ≠ .WaitingForParameters c i r := by
  rcases hinc : fields.increment with ⟨f1, e1⟩
  rcases hinc2 : f1.increment with ⟨f2, e2⟩
  cases e1 <;> cases e2 <;>
    simp [Gpu.receive_vram_word_from_cpu, hinc, hinc2]

lemma gpuStep_preserves_inv (g g' : Gpu) (hinv : ParamInv g) (hstep : GpuStep g g') :
    ParamInv g' := by
  cases hstep with
  | read _ fields hsend =>
    intro c i r hc
    exact absurd hc (read_result_not_waiting _ fields c i r)
  | write w _ _ hw =>
    intro c i r hc
    rcases hgs : g.gp0.command_state with _ | ⟨c0, i0, r0⟩ | p | fields | fields
    · -- from WaitingForCommand: a freshly classified command
      simp only [Gpu.handle_gp0_write, hgs] at hw
      split_ifs at hw
      · -- GP0($00)
        obtain rfl := Option.some_inj.mp hw
        simp [Gpu.set_state] at hc
      · -- GP0($01)
        obtain rfl := Option.some_inj.mp hw
        simp [Gpu.set_state] at hc
      · -- GP0($02) fill
        obtain rfl := Option.some_inj.mp hw
        simp only [Gpu.set_state, Gp0CommandState.fill,
          Gp0CommandState.WaitingForParameters.injEq] at hc
        obtain ⟨rfl, rfl, rfl⟩ := hc
        simp [commandParamCount]
      · -- polygon
        obtain rfl := Option.some_inj.mp hw
        simp only [Gpu.set_state, Gp0CommandState.draw_polygon,
          Gp0CommandState.WaitingForParameters.injEq] at hc
        obtain ⟨rfl, rfl, rfl⟩ := hc
        refine ⟨by simp [commandParamCount], ?_, ?_⟩ <;>
          · simp only [commandParamCount, from_bit_toNat]
            split_ifs <;> norm_num
      · -- line
        obtain rfl := Option.some_inj.mp hw
        simp only [Gpu.set_state, Gp0CommandState.draw_line,
          Gp0CommandState.WaitingForParameters.injEq] at hc
        obtain ⟨rfl, rfl, rfl⟩ := hc
        refine ⟨by simp [commandParamCount], ?_, ?_⟩ <;>
          · split_ifs <;> norm_num
      · -- rectangle
        obtain rfl := Option.some_inj.mp hw
        simp only [Gpu.set_state, Gp0CommandState.draw_rectangle,
          Gp0CommandState.WaitingForParameters.injEq] at hc
        obtain ⟨rfl, rfl, rfl⟩ := hc
        refine ⟨by simp [commandParamCount], ?_, ?_⟩ <;>
          · split_ifs <;> norm_num
      · -- VRAM-to-VRAM blit
        obtain rfl := Option.some_inj.mp hw
        simp only [Gpu.set_state, Gp0CommandState.VRAM_TO_VRAM_BLIT,
          Gp0CommandState.WaitingForParameters.injEq] at hc
        obtain ⟨rfl, rfl, rfl⟩ := hc
        simp [commandParamCount]
      · -- CPU-to-VRAM blit
        obtain rfl := Option.some_inj.mp hw
        simp only [Gpu.set_state, Gp0CommandState.CPU_TO_VRAM_BLIT,
          Gp0CommandState.WaitingForParameters.injEq] at hc
        obtain ⟨rfl, rfl, rfl⟩ := hc
        simp [commandParamCount]
      · -- VRAM-to-CPU blit
        obtain rfl := Option.some_inj.mp hw
        simp only [Gpu.set_state, Gp0CommandState.VRAM_TO_CPU_BLIT,
          Gp0CommandState.WaitingForParameters.injEq] at hc
        obtain ⟨rfl, rfl, rfl⟩ := hc
        simp [commandParamCount]
      · -- settings family
        obtain ⟨a, _, rfl⟩ := Option.map_eq_some'.mp hw
        simp [Gpu.set_state] at hc
    · -- from WaitingForParameters: store a word
      obtain ⟨hsum, hr1, hle⟩ := hinv c0 i0 r0 hgs
      simp only [Gpu.handle_gp0_write, hgs] at hw
      split_ifs at hw with hidx hrem
      · -- the command completes and executes
        obtain rfl := Option.some_inj.mp hw
        simp only [Gpu.set_state] at hc
        exact absurd hc (execute_result_not_waiting _ c0 c i r)
      · -- still accumulating
        obtain rfl := Option.some_inj.mp hw
        simp only [Gpu.set_state, Gpu.set_param,
          Gp0CommandState.WaitingForParameters.injEq] at hc
        obtain ⟨rfl, rfl, rfl⟩ := hc
        omega
    · -- from WaitingForPolyline
      simp only [Gpu.handle_gp0_write, hgs] at hw
      split_ifs at hw with hterm hgour
      · -- terminator
        obtain rfl := Option.some_inj.mp hw
        simp [Gpu.set_state] at hc
      · -- Gouraud continuation: wait for the vertex word
        obtain rfl := Option.some_inj.mp hw
        simp only [Gpu.set_state, Gpu.set_param,
          Gp0CommandState.WaitingForParameters.injEq] at hc
        obtain ⟨rfl, rfl, rfl⟩ := hc
        simp [commandParamCount, hgour]
      · -- flat continuation: draw at once
        obtain rfl := Option.some_inj.mp hw
        simp only [Gpu.set_state] at hc
        exact absurd hc (execute_result_not_waiting _ (.DrawLine p) c i r)
    · -- from ReceivingFromCpu
      simp only [Gpu.handle_gp0_write, hgs] at hw
      obtain rfl := Option.some_inj.mp hw
      simp only [Gpu.set_state] at hc
      exact absurd hc (receive_result_not_waiting _ w fields c i r)
    · -- from SendingToCpu
      simp [Gpu.handle_gp0_write, hgs] at hw

lemma remainingPixels_pos (f : VramTransferFields)
    (hc : f.col < f.x_size) (hr : f.row < f.y_size) : 1 ≤ remainingPixels f := by
  unfold remainingPixels
  have hx : f.x_size ≤ (f.y_size - f.row) * f.x_size :=
    Nat.le_mul_of_pos_left _ (by omega)
  omega

lemma increment_char (f : VramTransferFields)
    (hc : f.col < f.x_size) (hr : f.row < f.y_size) :
    (f.increment.2 = .Finished ↔ remainingPixels f = 1) ∧
    (f.increment.2 = .None →
      remainingPixels f.increment.1 = remainingPixels f - 1 ∧
      f.increment.1.col < f.increment.1.x_size ∧
      f.increment.1.row < f.increment.1.y_size ∧
      f.increment.1.x_size = f.x_size ∧ f.increment.1.y_size = f.y_size) := by
  by_cases h1 : f.col + 1 = f.x_size
  · by_cases h2 : f.row + 1 = f.y_size
    · -- the last pixel of the last row: Finished
      have hq : f.increment = ({ f with col := 0, row := f.row + 1 }, .Finished) := by
        simp [VramTransferFields.increment, h1, h2]
      rw [hq]
      refine ⟨⟨fun _ => ?_, fun _ => rfl⟩, by simp⟩
      unfold remainingPixels
      have hyr : f.y_size - f.row = 1 := by omega
      rw [hyr]
      omega
    · -- wrap to the start of the next row
      have hq : f.increment = ({ f with col := 0, row := f.row + 1 }, .None) := by
        simp [VramTransferFields.increment, h1, h2]
      rw [hq]
      obtain ⟨k, hk⟩ : ∃ k, f.y_size - f.row = k + 1 := ⟨f.y_size - f.row - 1, by omega⟩
      have hk2 : f.y_size - (f.row + 1) = k := by omega
      have hmul : (k + 1) * f.x_size = k * f.x_size + f.x_size := Nat.succ_mul k f.x_size
      constructor
      · constructor
        · intro hcontra
          exact absurd hcontra (by simp)
        · intro hrem
          exfalso
          unfold remainingPixels at hrem
          rw [hk] at hrem
          have hk1 : 1 ≤ k := by omega
          have hge : f.x_size ≤ k * f.x_size := Nat.le_mul_of_pos_left _ (by omega)
          omega
      · intro _
        refine ⟨?_, by simpa using (by omega : 0 < f.x_size), by simpa using (by omega : f.row + 1 < f.y_size), rfl, rfl⟩
        show (f.y_size - (f.row + 1)) * f.x_size - 0 = remainingPixels f - 1
        unfold remainingPixels
        rw [hk, hk2]
        omega
  · -- advance within the row
    have hq : f.increment = ({ f with col := f.col + 1 }, .None) := by
      simp [VramTransferFields.increment, h1]
    rw [hq]
    have hx : f.x_size ≤ (f.y_size - f.row) * f.x_size :=
      Nat.le_mul_of_pos_left _ (by omega)
    constructor
    · constructor
      · intro hcontra
        exact absurd hcontra (by simp)
      · intro hrem
        exfalso
        unfold remainingPixels at hrem
        omega
    · intro _
      refine ⟨?_, by simpa using (by omega : f.col + 1 < f.x_size), by simpa using hr, rfl, rfl⟩
      show (f.y_size - f.row) * f.x_size - (f.col + 1) = remainingPixels f - 1
      unfold remainingPixels
      omega

lemma stepsToFinish_eq (fuel : Nat) :
    ∀ f : VramTransferFields, f.col < f.x_size → f.row < f.y_size →
      remainingPixels f ≤ fuel → stepsToFinish fuel f = some (remainingPixels f) := by
  induction fuel with
  | zero =>
    intro f hc hr hle
    exact absurd hle (by have := remainingPixels_pos f hc hr; omega)
  | succ n ih =>
    intro f hc hr hle
    obtain ⟨hfin, hnone⟩ := increment_char f hc hr
    rcases hinc : f.increment with ⟨f', e⟩
    cases e with
    | Finished =>
      have h1 : remainingPixels f = 1 := by
        rw [← hfin, hinc]
      rw [h1]
      simp [stepsToFinish, hinc]
    | None =>
      have hne : remainingPixels f ≠ 1 := by
        intro h
        have := hfin.mpr h
        rw [hinc] at this
        exact absurd this (by simp)
      have hfacts := hnone (by rw [hinc])
      rw [hinc] at hfacts
      simp only at hfacts
      obtain ⟨hrem, hc', hr', hx', hy'⟩ := hfacts
      have h1 := remainingPixels_pos f hc hr
      rw [stepsToFinish, hinc]
      show Option.map (fun x => x + 1) (stepsToFinish n f') = some (remainingPixels f)
      rw [ih f' hc' hr' (by omega)]
      show some (remainingPixels f' + 1) = some (remainingPixels f)
      rw [hrem]
      congr 1
      omega

lemma wordsToFinish_eq (fuel : Nat) :
    ∀ f : VramTransferFields, f.col < f.x_size → f.row < f.y_size →
      remainingPixels f ≤ 2 * fuel → wordsToFinish fuel f = some ((remainingPixels f + 1) / 2) := by
  induction fuel with
  | zero =>
    intro f hc hr hle
    exact absurd hle (by have := remainingPixels_pos f hc hr; omega)
  | succ n ih =>
    intro f hc hr hle
    obtain ⟨hfin, hnone⟩ := increment_char f hc hr
    rcases hinc : f.increment with ⟨f', e⟩
    cases e with
    | Finished =>
      have h1 : remainingPixels f = 1 := by rw [← hfin, hinc]
      rw [h1]
      simp [wordsToFinish, hinc]
    | None =>
      have hne : remainingPixels f ≠ 1 := by
        intro h
        have := hfin.mpr h
        rw [hinc] at this
        exact absurd this (by simp)
      have hfacts := hnone (by rw [hinc])
      rw [hinc] at hfacts
      simp only at hfacts
      obtain ⟨hrem, hc', hr', hx', hy'⟩ := hfacts
      have h1 := remainingPixels_pos f hc hr
      obtain ⟨hfin', hnone'⟩ := increment_char f' hc' hr'
      rcases hinc' : f'.increment with ⟨f'', e'⟩
      cases e' with
      | Finished =>
        have h2 : remainingPixels f' = 1 := by rw [← hfin', hinc']
        rw [wordsToFinish, hinc]
        show (match f'.increment with
          | (_, IncrementEffect.Finished) => some 1
          | (f'', IncrementEffect.None) => Option.map (fun x => x + 1) (wordsToFinish n f'')) =
          some ((remainingPixels f + 1) / 2)
        rw [hinc']
        show some 1 = some ((remainingPixels f + 1) / 2)
        congr 1
        omega
      | None =>
        have hne' : remainingPixels f' ≠ 1 := by
          intro h
          have := hfin'.mpr h
          rw [hinc'] at this
          exact absurd this (by simp)
        have hfacts' := hnone' (by rw [hinc'])
        rw [hinc'] at hfacts'
        simp only at hfacts'
        obtain ⟨hrem', hc'', hr'', hx'', hy''⟩ := hfacts'
        have h2 := remainingPixels_pos f' hc' hr'
        rw [wordsToFinish, hinc]
        show (match f'.increment with
          | (_, IncrementEffect.Finished) => some 1
          | (f'', IncrementEffect.None) => Option.map (fun x => x + 1) (wordsToFinish n f'')) =
          some ((remainingPixels f + 1) / 2)
        rw [hinc']
        show Option.map (fun x => x + 1) (wordsToFinish n f'') = some ((remainingPixels f + 1) / 2)
        rw [ih f'' hc'' hr'' (by omega)]
        show some ((remainingPixels f'' + 1) / 2 + 1) = some ((remainingPixels f + 1) / 2)
        congr 1
        omega


/-!  Claim theorems.  -/


/-- Claim C1: for every polygon (family `001`) or rectangle (family `011`)
command word received in `WaitingForCommand`, the engine accumulates
exactly the closed-form number of trailing parameter words —
`vertex_count × (1 + textured) + (vertex_count − 1) × gouraud` for
polygons and `1 + textured + (size_class == Variable)` for rectangles —
before executing: fewer words leave it accumulating, and the final word
returns it to `WaitingForCommand`. -/
theorem polygon_rectangle_param_count (gpu : Gpu) (w : Nat)
    (hst : gpu.gp0.command_state = .WaitingForCommand)
    (hfam : w >>> 29 = 1 ∨ w >>> 29 = 3) :
    ∃ c : DrawCommand,
      ((feedWords gpu [w]).map (fun g => g.gp0.command_state) =
        some (.WaitingForParameters c 0 (claimedParamCount w))) ∧
      (∀ ws : List Nat, ws.length < claimedParamCount w →
        (feedWords gpu (w :: ws)).map (fun g => g.gp0.command_state) =
          some (.WaitingForParameters c ws.length (claimedParamCount w - ws.length))) ∧
      (∀ ws : List Nat, ws.length = claimedParamCount w →
        (feedWords gpu (w :: ws)).map (fun g => g.gp0.command_state) =
          some .WaitingForCommand) := by
  have feedWords_one : ∀ (g : Gpu) (v : Nat), feedWords g [v] = g.handle_gp0_write v := by
    intro g v
    simp [feedWords]
  rcases hfam with h | h
  · -- polygon family 001
    have hN : claimedParamCount w = polygonParamCountFormula w := by
      simp [claimedParamCount, h]
    have hbounds := polygon_formula_bounds w
    have hhandle : gpu.handle_gp0_write w =
        some (gpu.set_state (Gp0CommandState.draw_polygon w)) := by
      simp [Gpu.handle_gp0_write, hst, h]
    have hstate : (gpu.set_state (Gp0CommandState.draw_polygon w)).gp0.command_state =
        .WaitingForParameters
          (.DrawPolygon
            { vertices := PolygonVertices.from_bit (w.testBit 27),
              gouraud_shading := w.testBit 28, textured := w.testBit 26,
              semi_transparent := w.testBit 25, raw_texture := w.testBit 24,
              color := parse_command_color w })
          0 (claimedParamCount w) := by
      simp [Gpu.set_state, Gp0CommandState.draw_polygon, hN, polygonParamCountFormula,
        from_bit_toNat]
    refine ⟨.DrawPolygon
      { vertices := PolygonVertices.from_bit (w.testBit 27),
        gouraud_shading := w.testBit 28, textured := w.testBit 26,
        semi_transparent := w.testBit 25, raw_texture := w.testBit 24,
        color := parse_command_color w }, ?_, ?_, ?_⟩
    · rw [feedWords_one, hhandle]
      simp [hstate]
    · intro ws hlen
      rw [feedWords_cons, hhandle, Option.some_bind]
      obtain ⟨g₂, hf, hs⟩ := feed_accumulate _ ws _ 0 (claimedParamCount w) hstate
        (by omega) hlen
      rw [hf]
      simp [hs]
    · intro ws hlen
      have hne : ws ≠ [] := by
        intro hnil
        rw [hnil] at hlen
        simp at hlen
        omega
      have hll : ws.dropLast.length = claimedParamCount w - 1 := by
        simp [List.length_dropLast, hlen]
      obtain ⟨g₂, hf, hs⟩ := feed_accumulate _ ws.dropLast _ 0 (claimedParamCount w) hstate
        (by omega) (by omega)
      have hrem : claimedParamCount w - ws.dropLast.length = 1 := by omega
      rw [hrem] at hs
      have hi : 0 + ws.dropLast.length < PARAMETERS_LEN := by
        unfold PARAMETERS_LEN
        omega
      rw [show w :: ws = (w :: ws.dropLast) ++ [ws.getLast hne] by
        simp [List.dropLast_append_getLast hne]]
      rw [feedWords_append_one, feedWords_cons, hhandle, Option.some_bind, hf,
        Option.some_bind, handle_last_param_exec g₂ _ _ (ws.getLast hne) hs hi]
      simp [Gpu.execute_draw_command]
  · -- rectangle family 011
    have hN : claimedParamCount w = rectangleParamCountFormula w := by
      simp [claimedParamCount, h]
    have hbounds := rectangle_formula_bounds w
    have hhandle : gpu.handle_gp0_write w =
        some (gpu.set_state (Gp0CommandState.draw_rectangle w)) := by
      simp [Gpu.handle_gp0_write, hst, h]
    have hstate : (gpu.set_state (Gp0CommandState.draw_rectangle w)).gp0.command_state =
        .WaitingForParameters
          (.DrawRectangle
            { size := RectangleSize.from_bits (w >>> 27),
              textured := w.testBit 26, semi_transparent := w.testBit 25,
              raw_texture := w.testBit 24, color := parse_command_color w })
          0 (claimedParamCount w) := by
      simp [Gpu.set_state, Gp0CommandState.draw_rectangle, hN, rectangleParamCountFormula,
        from_bits_variable_iff]
    refine ⟨.DrawRectangle
      { size := RectangleSize.from_bits (w >>> 27),
        textured := w.testBit 26, semi_transparent := w.testBit 25,
        raw_texture := w.testBit 24, color := parse_command_color w }, ?_, ?_, ?_⟩
    · rw [feedWords_one, hhandle]
      simp [hstate]
    · intro ws hlen
      rw [feedWords_cons, hhandle, Option.some_bind]
      obtain ⟨g₂, hf, hs⟩ := feed_accumulate _ ws _ 0 (claimedParamCount w) hstate
        (by omega) hlen
      rw [hf]
      simp [hs]
    · intro ws hlen
      have hne : ws ≠ [] := by
        intro hnil
        rw [hnil] at hlen
        simp at hlen
        omega
      have hll : ws.dropLast.length = claimedParamCount w - 1 := by
        simp [List.length_dropLast, hlen]
      obtain ⟨g₂, hf, hs⟩ := feed_accumulate _ ws.dropLast _ 0 (claimedParamCount w) hstate
        (by omega) (by omega)
      have hrem : claimedParamCount w - ws.dropLast.length = 1 := by omega
      rw [hrem] at hs
      have hi : 0 + ws.dropLast.length < PARAMETERS_LEN := by
        unfold PARAMETERS_LEN
        omega
      rw [show w :: ws = (w :: ws.dropLast) ++ [ws.getLast hne] by
        simp [List.dropLast_append_getLast hne]]
      rw [feedWords_append_one, feedWords_cons, hhandle, Option.some_bind, hf,
        Option.some_bind, handle_last_param_exec g₂ _ _ (ws.getLast hne) hs hi]
      simp [Gpu.execute_draw_command]

/-- Claim C1 witness: a Gouraud textured quad (11 parameters) runs to completion. -/
theorem c1_witness :
    (feedWords Gpu.init (0x3C000000 :: List.replicate 11 0)).map
      (fun g => g.gp0.command_state) = some .WaitingForCommand := by
  obtain ⟨c, h1, h2, h3⟩ :=
    polygon_rectangle_param_count Gpu.init 0x3C000000 rfl (Or.inl (by decide))
  exact h3 (List.replicate 11 0) (by decide)

/-- Claim C2, counterexample to the claim as stated: after a Gouraud
polyline has drawn segment A→B, feeding a single vertex word draws
nothing — the engine stores the word as the next segment color and moves
to `WaitingForParameters` to await the vertex word (the draw log still
holds exactly one segment). -/
theorem gouraud_polyline_single_vertex_word_draws_nothing :
    ((feedWords Gpu.init [0x58010203, 0x00010001, 0x00040506, 0x00020002]).map
      (fun g => (g.gp0.command_state, g.draw_log.length)) =
      some (.WaitingForPolyline
        { gouraud_shading := true, polyline := true, semi_transparent := false,
          color := { r := 6, g := 5, b := 4 } }, 1)) ∧
    ((feedWords Gpu.init [0x58010203, 0x00010001, 0x00040506, 0x00020002, 0x00030003]).map
      (fun g => (g.gp0.command_state, g.draw_log.length)) =
      some (.WaitingForParameters
        (.DrawLine { gouraud_shading := true, polyline := true, semi_transparent := false,
                     color := { r := 6, g := 5, b := 4 } }) 2 1, 1)) :=
  ⟨rfl, rfl⟩

/-- Claim C2 (amended): a Gouraud polyline (family `010`, polyline and
Gouraud flags set) started with vertex A and command-word color Ca, then
fed (color Cb, vertex B), draws segment A→B with endpoint colors
(Ca, Cb); a continuation in `WaitingForPolyline` consumes a color word Cc
followed by a vertex word C and draws segment B→C with endpoint colors
(Cb, Cc); and feeding a word matching the terminator pattern
`0x50005000` (masked by `0xF000F000`) at any point in
`WaitingForPolyline` returns the engine to `WaitingForCommand` without
drawing anything. -/
theorem gouraud_polyline_protocol (gpu : Gpu) (cmd wA wCb wB wCc wC : Nat)
    (hst : gpu.gp0.command_state = .WaitingForCommand)
    (h29 : cmd >>> 29 = 2)
    (hg : cmd.testBit 28 = true)
    (hp : cmd.testBit 27 = true)
    (hCc : ¬ (wCc &&& 0xF000F000 = 0x50005000)) :
    ((feedWords gpu [cmd, wA, wCb, wB]).map (fun g => g.draw_log) =
      some (gpu.draw_log ++
        [.line { vertices := (parse_vertex_coordinates wA, parse_vertex_coordinates wB),
                 shading := .Gouraud (parse_command_color cmd) (parse_command_color wCb),
                 semi_transparent := cmd.testBit 25 }])) ∧
    ((feedWords gpu [cmd, wA, wCb, wB]).map (fun g => g.gp0.command_state) =
      some (.WaitingForPolyline
        { gouraud_shading := true, polyline := true, semi_transparent := cmd.testBit 25,
          color := parse_command_color wCb })) ∧
    ((feedWords gpu [cmd, wA, wCb, wB, wCc]).map (fun g => (g.gp0.command_state, g.draw_log)) =
      some (.WaitingForParameters
        (.DrawLine { gouraud_shading := true, polyline := true,
                     semi_transparent := cmd.testBit 25, color := parse_command_color wCb }) 2 1,
        gpu.draw_log ++
        [.line { vertices := (parse_vertex_coordinates wA, parse_vertex_coordinates wB),
                 shading := .Gouraud (parse_command_color cmd) (parse_command_color wCb),
                 semi_transparent := cmd.testBit 25 }])) ∧
    ((feedWords gpu [cmd, wA, wCb, wB, wCc, wC]).map (fun g => (g.gp0.command_state, g.draw_log)) =
      some (.WaitingForPolyline
        { gouraud_shading := true, polyline := true, semi_transparent := cmd.testBit 25,
          color := parse_command_color wCc },
        gpu.draw_log ++
        [.line { vertices := (parse_vertex_coordinates wA, parse_vertex_coordinates wB),
                 shading := .Gouraud (parse_command_color cmd) (parse_command_color wCb),
                 semi_transparent := cmd.testBit 25 },
         .line { vertices := (parse_vertex_coordinates wB, parse_vertex_coordinates wC),
                 shading := .Gouraud (parse_command_color wCb) (parse_command_color wCc),
                 semi_transparent := cmd.testBit 25 }])) ∧
    (∀ (g₁ : Gpu) (term : Nat) (p : LineCommandParameters),
      g₁.gp0.command_state = .WaitingForPolyline p →
      term &&& 0xF000F000 = 0x50005000 →
      g₁.handle_gp0_write term = some (g₁.set_state .WaitingForCommand)) := by
  refine ⟨?_, ?_, ?_, ?_, ?_⟩
  · simp [feedWords, Gpu.handle_gp0_write, hst, h29, Gp0CommandState.draw_line, hg, hp,
      Gpu.set_state, Gpu.set_param, updF, Gpu.execute_draw_command, Gpu.draw_line,
      parse_draw_line_parameters, PARAMETERS_LEN]
  · simp [feedWords, Gpu.handle_gp0_write, hst, h29, Gp0CommandState.draw_line, hg, hp,
      Gpu.set_state, Gpu.set_param, updF, Gpu.execute_draw_command, Gpu.draw_line,
      parse_draw_line_parameters, PARAMETERS_LEN]
  · simp [feedWords, Gpu.handle_gp0_write, hst, h29, Gp0CommandState.draw_line, hg, hp, hCc,
      Gpu.set_state, Gpu.set_param, updF, Gpu.execute_draw_command, Gpu.draw_line,
      parse_draw_line_parameters, PARAMETERS_LEN]
  · simp [feedWords, Gpu.handle_gp0_write, hst, h29, Gp0CommandState.draw_line, hg, hp, hCc,
      Gpu.set_state, Gpu.set_param, updF, Gpu.execute_draw_command, Gpu.draw_line,
      parse_draw_line_parameters, PARAMETERS_LEN, parse_vertex_repack]
  · intro g₁ term p hg₁ hterm
    simp [Gpu.handle_gp0_write, hg₁, hterm]

/-- Claim C2 witness: a concrete Gouraud polyline with two segments. -/
theorem c2_witness :
    (feedWords Gpu.init
        [0x58010203, 0x00010001, 0x00040506, 0x00020002, 0x00070809, 0x00030003]).map
      (fun g => (g.gp0.command_state, g.draw_log)) =
      some (.WaitingForPolyline
        { gouraud_shading := true, polyline := true,
          semi_transparent := Nat.testBit 0x58010203 25,
          color := parse_command_color 0x00070809 },
        Gpu.init.draw_log ++
        [.line { vertices := (parse_vertex_coordinates 0x00010001,
                              parse_vertex_coordinates 0x00020002),
                 shading := .Gouraud (parse_command_color 0x58010203)
                   (parse_command_color 0x00040506),
                 semi_transparent := Nat.testBit 0x58010203 25 },
         .line { vertices := (parse_vertex_coordinates 0x00020002,
                              parse_vertex_coordinates 0x00030003),
                 shading := .Gouraud (parse_command_color 0x00040506)
                   (parse_command_color 0x00070809),
                 semi_transparent := Nat.testBit 0x58010203 25 }]) :=
  (gouraud_polyline_protocol Gpu.init 0x58010203 0x00010001 0x00040506 0x00020002
    0x00070809 0x00030003 rfl (by decide) (by decide) (by decide) (by decide)).2.2.2.1

/-- Claim C3, counterexample to the claim as stated: a CPU-to-VRAM blit
whose size word has zero width and height fields is not empty — after one
data word, VRAM byte 0 has changed from 0 to `0x78`. -/
theorem zero_size_blit_touches_pixels :
    Gpu.init.vram 0 = 0 ∧
    (feedWords Gpu.init [0xA0000000, 0x00000000, 0x00000000, 0x12345678]).map
      (fun g => g.vram 0) = some 0x78 :=
  ⟨rfl, rfl⟩

/-- Claim C3 (amended): a blit size word with a zero width field decodes
to the maximum width 1024 and a zero height field to the maximum height
512 — every decoded blit size lies in `[1, 1024] × [1, 512]`, so such a
blit is full-sized rather than empty, and it is accepted without error
(a CPU-to-VRAM blit enters `ReceivingFromCpu` with that cursor). -/
theorem zero_size_field_means_max_size :
    (∀ v : Nat,
      1 ≤ (parse_vram_size v).1 ∧ (parse_vram_size v).1 ≤ 1024 ∧
      1 ≤ (parse_vram_size v).2 ∧ (parse_vram_size v).2 ≤ 512 ∧
      (v &&& 0x3FF = 0 → (parse_vram_size v).1 = 1024) ∧
      ((v >>> 16) &&& 0x1FF = 0 → (parse_vram_size v).2 = 512)) ∧
    (∀ (gpu : Gpu) (w pos size : Nat), gpu.gp0.command_state = .WaitingForCommand →
      w >>> 29 = 5 →
      ∃ gpu', feedWords gpu [w, pos, size] = some gpu' ∧
        gpu'.gp0.command_state = .ReceivingFromCpu
          { destination_x := (parse_vram_position pos).1,
            destination_y := (parse_vram_position pos).2,
            x_size := (parse_vram_size size).1, y_size := (parse_vram_size size).2,
            row := 0, col := 0 }) := by
  constructor
  · intro v
    rw [parse_vram_size_fst, parse_vram_size_snd, and_mask_1023, and_mask_511]
    have h1 : (v + 1023) % 1024 < 1024 := Nat.mod_lt _ (by norm_num)
    have h2 : (v >>> 16 + 511) % 512 < 512 := Nat.mod_lt _ (by norm_num)
    refine ⟨by omega, by omega, by omega, by omega, ?_, ?_⟩ <;> intro h <;> omega
  · intro gpu w pos size hst h29
    refine ⟨((((gpu.set_state (.WaitingForParameters .CpuToVramBlit 0 2)).set_param 0
        pos).set_state (.WaitingForParameters .CpuToVramBlit 1 1)).set_param 1 size).set_state
        (.ReceivingFromCpu
          { destination_x := (parse_vram_position pos).1,
            destination_y := (parse_vram_position pos).2,
            x_size := (parse_vram_size size).1, y_size := (parse_vram_size size).2,
            row := 0, col := 0 }), ?_, ?_⟩
    · simp [feedWords, Gpu.handle_gp0_write, hst, h29, Gp0CommandState.CPU_TO_VRAM_BLIT,
        Gpu.set_state, Gpu.set_param, updF, Gpu.execute_draw_command, PARAMETERS_LEN,
        parse_vram_position, parse_vram_size]
    · simp [Gpu.set_state]

/-- Claim C3 witness: the all-zero size word decodes to 1024×512. -/
theorem c3_witness :
    (parse_vram_size 0).1 = 1024 ∧ (parse_vram_size 0).2 = 512 :=
  ⟨((zero_size_field_means_max_size.1 0).2.2.2.2.1) (by decide),
   ((zero_size_field_means_max_size.1 0).2.2.2.2.2) (by decide)⟩

/-- Claim C4: during a CPU-to-VRAM blit each word is unpacked into two
16-bit pixels written at cursor-derived byte addresses (`2048·((dy+row)
mod 512) + 2·((dx+col) mod 1024)`), the cursor advancing in raster order
per pixel; the 2×2 blit at origin (0,0) consumes exactly 2 words, its 4
pixels landing at cells (0,0),(1,0),(0,1),(1,1) (byte addresses 0, 2,
2048, 2050) with all other VRAM bytes untouched; and a word arriving with
the cursor on the final cell writes only its low halfword — the second
pixel is discarded — and returns the engine to `WaitingForCommand`. -/
theorem cpu_to_vram_blit_streaming
    (gpu gpu2 : Gpu) (w1 w2 w : Nat) (f : VramTransferFields)
    (hst : gpu.gp0.command_state = .ReceivingFromCpu
      { destination_x := 0, destination_y := 0, x_size := 2, y_size := 2, row := 0, col := 0 })
    (hst2 : gpu2.gp0.command_state = .ReceivingFromCpu f)
    (hcol : f.col + 1 = f.x_size) (hrow : f.row + 1 = f.y_size) :
    (∀ g : VramTransferFields,
      g.vram_addr =
        2048 * ((g.destination_y + g.row) % 512) + 2 * ((g.destination_x + g.col) % 1024)) ∧
    ((feedWords gpu [w1]).map (fun g => g.gp0.command_state) =
      some (.ReceivingFromCpu
        { destination_x := 0, destination_y := 0, x_size := 2, y_size := 2, row := 1, col := 0 })) ∧
    ((feedWords gpu [w1, w2]).map (fun g => g.gp0.command_state) = some .WaitingForCommand) ∧
    ((feedWords gpu [w1, w2]).map (fun g =>
        (g.vram 0, g.vram 1, g.vram 2, g.vram 3,
         g.vram 2048, g.vram 2049, g.vram 2050, g.vram 2051)) =
      some ((w1 &&& 0xFFFF) % 256, (w1 &&& 0xFFFF) >>> 8 % 256,
            (w1 >>> 16) % 256, (w1 >>> 16) >>> 8 % 256,
            (w2 &&& 0xFFFF) % 256, (w2 &&& 0xFFFF) >>> 8 % 256,
            (w2 >>> 16) % 256, (w2 >>> 16) >>> 8 % 256)) ∧
    (∀ a : Nat, a ∉ ([0, 1, 2, 3, 2048, 2049, 2050, 2051] : List Nat) →
      (feedWords gpu [w1, w2]).map (fun g => g.vram a) = some (gpu.vram a)) ∧
    ((gpu2.handle_gp0_write w).map (fun g => (g.gp0.command_state, g.vram)) =
      some (.WaitingForCommand, writeHalfword gpu2.vram f.vram_addr (w &&& 0xFFFF))) := by
  refine ⟨?_, ?_, ?_, ?_, ?_, ?_⟩
  · intro g
    rw [VramTransferFields.vram_addr, and_mask_511, and_mask_1023]
  · simp [feedWords, Gpu.handle_gp0_write, hst, Gpu.receive_vram_word_from_cpu,
      VramTransferFields.increment, VramTransferFields.vram_addr, Gpu.set_state]
  · simp [feedWords, Gpu.handle_gp0_write, hst, Gpu.receive_vram_word_from_cpu,
      VramTransferFields.increment, VramTransferFields.vram_addr, Gpu.set_state]
  · simp [feedWords, Gpu.handle_gp0_write, hst, Gpu.receive_vram_word_from_cpu,
      VramTransferFields.increment, VramTransferFields.vram_addr, Gpu.set_state,
      writeHalfword]
  · intro a ha
    simp only [List.mem_cons, List.not_mem_nil, or_false, not_or] at ha
    obtain ⟨h0, h1, h2, h3, h4, h5, h6, h7⟩ := ha
    simp [feedWords, Gpu.handle_gp0_write, hst, Gpu.receive_vram_word_from_cpu,
      VramTransferFields.increment, VramTransferFields.vram_addr, Gpu.set_state,
      writeHalfword, h0, h1, h2, h3, h4, h5, h6, h7]
  · simp [Gpu.handle_gp0_write, hst2, Gpu.receive_vram_word_from_cpu,
      VramTransferFields.increment, hcol, hrow, Gpu.set_state]

/-- Claim C4 witness: the 2×2 blit completes in 2 words; a 1×1 blit discards the high halfword. -/
theorem c4_witness :
    ((feedWords recvGpu [0x11112222, 0x33334444]).map (fun g => g.gp0.command_state) =
      some .WaitingForCommand) ∧
    ((recvGpuLast.handle_gp0_write 0xAAAA5555).map
        (fun g => (g.gp0.command_state, g.vram)) =
      some (.WaitingForCommand,
        writeHalfword recvGpuLast.vram
          ({ destination_x := 0, destination_y := 0, x_size := 1, y_size := 1,
             row := 0, col := 0 } : VramTransferFields).vram_addr (0xAAAA5555 &&& 0xFFFF))) :=
  ⟨(cpu_to_vram_blit_streaming recvGpu recvGpuLast 0x11112222 0x33334444 0xAAAA5555
      { destination_x := 0, destination_y := 0, x_size := 1, y_size := 1, row := 0, col := 0 }
      rfl rfl rfl rfl).2.2.1,
   (cpu_to_vram_blit_streaming recvGpu recvGpuLast 0x11112222 0x33334444 0xAAAA5555
      { destination_x := 0, destination_y := 0, x_size := 1, y_size := 1, row := 0, col := 0 }
      rfl rfl rfl rfl).2.2.2.2.2⟩

/-- Claim C5: in every reachable `WaitingForParameters` state,
`index + remaining` equals the classified command's total parameter
count, `remaining ≥ 1`, and `index + remaining ≤ 11`, so every
parameter-word store writes inside the 11-word buffer (the store index is
always below `PARAMETERS_LEN`, hence no write panics), and the command
field is never modified while parameters are being accumulated. -/
theorem param_buffer_invariant (g : Gpu) (hreach : Reachable g)
    (c : DrawCommand) (i r : Nat)
    (hstate : g.gp0.command_state = .WaitingForParameters c i r) :
    (i + r = commandParamCount c ∧ 1 ≤ r ∧ i + r ≤ 11) ∧
    i < PARAMETERS_LEN ∧
    (∀ w : Nat, (g.handle_gp0_write w).isSome) ∧
    (∀ (w : Nat) (g' : Gpu) (c' : DrawCommand) (i' r' : Nat),
      g.handle_gp0_write w = some g' →
      g'.gp0.command_state = .WaitingForParameters c' i' r' → c' = c) := by
  have hinv : ParamInv g := by
    clear hstate
    have hr : Relation.ReflTransGen GpuStep Gpu.init g := hreach
    clear hreach
    induction hr with
    | refl =>
      intro c i r h
      simp [Gpu.init, Gp0State.new] at h
    | tail hab hbc ih => exact gpuStep_preserves_inv _ _ ih hbc
  obtain ⟨hsum, hr1, hle⟩ := hinv c i r hstate
  have hi : i < PARAMETERS_LEN := by
    unfold PARAMETERS_LEN
    omega
  refine ⟨⟨hsum, hr1, hle⟩, hi, ?_, ?_⟩
  · intro w
    simp only [Gpu.handle_gp0_write, hstate, hi, if_true]
    split <;> simp
  · intro w g' c' i' r' hw hstate'
    simp only [Gpu.handle_gp0_write, hstate] at hw
    split_ifs at hw
    · obtain rfl := Option.some_inj.mp hw
      simp only [Gpu.set_state] at hstate'
      exact absurd hstate' (execute_result_not_waiting _ c c' i' r')
    · obtain rfl := Option.some_inj.mp hw
      simp only [Gpu.set_state, Gpu.set_param,
        Gp0CommandState.WaitingForParameters.injEq] at hstate'
      exact hstate'.1.symm

/-- Claim C5 witness: the invariant at the reachable flat-triangle state. -/
theorem c5_witness :
    0 + 3 = commandParamCount
      (.DrawPolygon
        { vertices := .Three, gouraud_shading := false, textured := false,
          semi_transparent := false, raw_texture := false,
          color := { r := 0, g := 0, b := 0 } }) ∧ 1 ≤ 3 ∧ 0 + 3 ≤ 11 :=
  (param_buffer_invariant triangleGpu
    (Relation.ReflTransGen.single (GpuStep.write 0x20000000 Gpu.init triangleGpu rfl))
    _ 0 3 rfl).1

/-- Claim C6: for every word value, a command-port write received while
the engine is in `SendingToCpu` is a fatal protocol violation — the
transition function aborts (`none`) rather than changing state, consuming
the word, or continuing. -/
theorem gp0_write_during_sending_panics (gpu : Gpu) (value : Nat)
    (fields : VramTransferFields)
    (h : gpu.gp0.command_state = .SendingToCpu fields) :
    gpu.handle_gp0_write value = none := by
  simp [Gpu.handle_gp0_write, h]

/-- Claim C6 witness: a concrete write during a VRAM-to-CPU blit panics. -/
theorem gp0_write_during_sending_panics_witness :
    sendingGpu.handle_gp0_write 0x12345678 = none :=
  gp0_write_during_sending_panics sendingGpu 0x12345678 _ rfl

/-- Claim C7: settings command `0xE5` decodes each coordinate as a
signed 11-bit two's-complement field: `parse_signed_11_bit` maps the low
11 bits of a word into `[−1024, +1023]` by sign extension, low bits
`0x400` give x-offset `−1024` and `0x3FF` give `+1023`, and the decoded
pair is stored as the draw offset. -/
theorem settings_e5_signed_11_bit (gpu : Gpu) (w : Nat)
    (hw : w >>> 24 = 0xE5)
    (hst : gpu.gp0.command_state = .WaitingForCommand) :
    ∃ gpu', gpu.handle_gp0_write w = some gpu' ∧
      gpu'.gp0.draw_settings.draw_offset =
        (parse_signed_11_bit w, parse_signed_11_bit (w >>> 11)) ∧
      (∀ v : Nat, parse_signed_11_bit v =
        if v % 2048 < 1024 then ((v % 2048 : Nat) : Int) else ((v % 2048 : Nat) : Int) - 2048) ∧
      (∀ v : Nat, -1024 ≤ parse_signed_11_bit v ∧ parse_signed_11_bit v ≤ 1023) ∧
      (w % 2048 = 0x400 → parse_signed_11_bit w = -1024) ∧
      (w % 2048 = 0x3FF → parse_signed_11_bit w = 1023) := by
  have h29 : w >>> 29 = 7 := by simpa using shr29_of_shr24 w 0xE5 hw
  refine ⟨({ gpu with gp0 := { gpu.gp0 with draw_settings :=
      { gpu.gp0.draw_settings with
        draw_offset := (parse_signed_11_bit w, parse_signed_11_bit (w >>> 11)) } } } : Gpu).set_state
      .WaitingForCommand,
    ?_, ?_, fun v => parse_signed_11_bit_eq v, fun v => parse_signed_11_bit_range v, ?_, ?_⟩
  · simp [Gpu.handle_gp0_write, hst, h29, Gpu.execute_settings_command, hw]
  · simp [Gpu.set_state]
  · intro hlow
    rw [parse_signed_11_bit_eq, hlow]
    norm_num
  · intro hlow
    rw [parse_signed_11_bit_eq, hlow]
    norm_num

/-- Claim C7 witness: low bits `0x400` decode to `−1024`. -/
theorem c7_witness : parse_signed_11_bit 0xE5000400 = -1024 := by
  obtain ⟨g', h1, h2, h3, h4, h5, h6⟩ :=
    settings_e5_signed_11_bit Gpu.init 0xE5000400 (by decide) rfl
  exact h5 (by decide)

/-- Claim C8: every settings command `0xE1`–`0xE6` (family `111`)
executes immediately with zero parameters, mutates only its own
designated area of the persistent settings (texture page & draw mode for
`0xE1`, texture window for `0xE2`, drawing-area corners for `0xE3`/
`0xE4`, draw offset for `0xE5`, mask-bit flags for `0xE6`), leaves all
other persistent settings, the parameter buffer, VRAM and the dispatch
log unchanged, and stays in `WaitingForCommand`; moreover any family-111
write that the engine accepts leaves the parameter buffer, VRAM and log
unchanged and settles in `WaitingForCommand`. -/
theorem settings_commands_frame (gpu : Gpu) (w : Nat)
    (hlo : 0xE1 ≤ w >>> 24) (hhi : w >>> 24 ≤ 0xE6)
    (hst : gpu.gp0.command_state = .WaitingForCommand) :
    (∃ gpu', gpu.handle_gp0_write w = some gpu' ∧
      gpu'.gp0.command_state = .WaitingForCommand ∧
      gpu'.gp0.parameters = gpu.gp0.parameters ∧
      gpu'.vram = gpu.vram ∧
      gpu'.draw_log = gpu.draw_log ∧
      (w >>> 24 = 0xE1 →
        gpu'.gp0.global_texture_page = TexturePage.from_command_word w ∧
        gpu'.gp0.draw_settings =
          { gpu.gp0.draw_settings with
            drawing_in_display_allowed := w.testBit 10,
            dithering_enabled := w.testBit 9 } ∧
        gpu'.gp0.texture_window = gpu.gp0.texture_window) ∧
      (w >>> 24 = 0xE2 →
        gpu'.gp0.texture_window = TextureWindow.from_command_word w ∧
        gpu'.gp0.global_texture_page = gpu.gp0.global_texture_page ∧
        gpu'.gp0.draw_settings = gpu.gp0.draw_settings) ∧
      (w >>> 24 = 0xE3 →
        gpu'.gp0.draw_settings =
          { gpu.gp0.draw_settings with
            draw_area_top_left := (w &&& 0x3FF, (w >>> 10) &&& 0x1FF) } ∧
        gpu'.gp0.global_texture_page = gpu.gp0.global_texture_page ∧
        gpu'.gp0.texture_window = gpu.gp0.texture_window) ∧
      (w >>> 24 = 0xE4 →
        gpu'.gp0.draw_settings =
          { gpu.gp0.draw_settings with
            draw_area_bottom_right := (w &&& 0x3FF, (w >>> 10) &&& 0x1FF) } ∧
        gpu'.gp0.global_texture_page = gpu.gp0.global_texture_page ∧
        gpu'.gp0.texture_window = gpu.gp0.texture_window) ∧
      (w >>> 24 = 0xE5 →
        gpu'.gp0.draw_settings =
          { gpu.gp0.draw_settings with
            draw_offset := (parse_signed_11_bit w, parse_signed_11_bit (w >>> 11)) } ∧
        gpu'.gp0.global_texture_page = gpu.gp0.global_texture_page ∧
        gpu'.gp0.texture_window = gpu.gp0.texture_window) ∧
      (w >>> 24 = 0xE6 →
        gpu'.gp0.draw_settings =
          { gpu.gp0.draw_settings with
            force_mask_bit := w.testBit 0,
            check_mask_bit := w.testBit 1 } ∧
        gpu'.gp0.global_texture_page = gpu.gp0.global_texture_page ∧
        gpu'.gp0.texture_window = gpu.gp0.texture_window)) ∧
    (∀ (v : Nat) (g₁ g₂ : Gpu), v >>> 29 = 7 →
      g₁.gp0.command_state = .WaitingForCommand →
      g₁.handle_gp0_write v = some g₂ →
      g₂.gp0.command_state = .WaitingForCommand ∧
      g₂.gp0.parameters = g₁.gp0.parameters ∧
      g₂.vram = g₁.vram ∧
      g₂.draw_log = g₁.draw_log) := by
  constructor
  · have h5 : (w >>> 24) >>> 5 = 7 := by
      rw [Nat.shiftRight_eq_div_pow]
      omega
    have h29 : w >>> 29 = 7 := by
      rw [(Nat.shiftRight_add w 24 5 : w >>> 29 = (w >>> 24) >>> 5)]
      exact h5
    have hcase : w >>> 24 = 0xE1 ∨ w >>> 24 = 0xE2 ∨ w >>> 24 = 0xE3 ∨
        w >>> 24 = 0xE4 ∨ w >>> 24 = 0xE5 ∨ w >>> 24 = 0xE6 := by omega
    rcases hcase with hwc | hwc | hwc | hwc | hwc | hwc <;>
      refine ⟨_, by simp [Gpu.handle_gp0_write, hst, h29, Gpu.execute_settings_command, hwc]; rfl, ?_⟩ <;>
      simp [Gpu.set_state, hwc]
  · intro v g₁ g₂ hv29 hg1 hsome
    simp only [Gpu.handle_gp0_write, hg1, hv29, if_pos, if_neg] at hsome
    norm_num at hsome
    simp only [Gpu.execute_settings_command] at hsome
    split_ifs at hsome <;>
      obtain ⟨a, ha, hg2⟩ := hsome <;>
      first
      | exact ha.elim
      | (subst hg2; obtain rfl := Option.some_inj.mp ha; simp [Gpu.set_state])

/-- Claim C8 witness: `0xE3` sets the drawing-area top-left and returns to `WaitingForCommand`. -/
theorem c8_witness :
    (Gpu.init.handle_gp0_write 0xE3000123).map
      (fun g => (g.gp0.command_state, g.gp0.draw_settings.draw_area_top_left)) =
      some (.WaitingForCommand, (0x123, 0)) := by
  obtain ⟨⟨g', hrun, hwfc, hparams, hvram, hlog, hE1, hE2, hE3, hE4, hE5, hE6⟩, hfam⟩ :=
    settings_commands_frame Gpu.init 0xE3000123 (by decide) (by decide) rfl
  obtain ⟨hds, _, _⟩ := hE3 (by decide)
  rw [hrun]
  simp [hwfc, hds]
  decide

/-- Claim C9: writing the same texture-page settings command (`0xE1`)
twice in a row from `WaitingForCommand` leaves the device — persistent
settings included — in exactly the same state as writing it once. -/
theorem texpage_settings_idempotent (gpu : Gpu) (w : Nat)
    (hw : w >>> 24 = 0xE1)
    (hst : gpu.gp0.command_state = .WaitingForCommand) :
    ∃ gpu₁, gpu.handle_gp0_write w = some gpu₁ ∧ gpu₁.handle_gp0_write w = some gpu₁ := by
  have h29 : w >>> 29 = 7 := by simpa using shr29_of_shr24 w 0xE1 hw
  refine ⟨({ gpu with gp0 := { gpu.gp0 with
      global_texture_page := TexturePage.from_command_word w,
      draw_settings := { gpu.gp0.draw_settings with
        drawing_in_display_allowed := w.testBit 10,
        dithering_enabled := w.testBit 9 } } } : Gpu).set_state .WaitingForCommand, ?_, ?_⟩
  · simp [Gpu.handle_gp0_write, hst, h29, Gpu.execute_settings_command, hw]
  · simp [Gpu.handle_gp0_write, Gpu.set_state, h29, Gpu.execute_settings_command, hw]

/-- Claim C9 witness: `0xE1000155` twice equals once. -/
theorem c9_witness :
    (Gpu.init.handle_gp0_write 0xE1000155).bind
      (fun g => g.handle_gp0_write 0xE1000155) = Gpu.init.handle_gp0_write 0xE1000155 := by
  obtain ⟨g₁, h1, h2⟩ := texpage_settings_idempotent Gpu.init 0xE1000155 (by decide) rfl
  rw [h1, Option.some_bind, h2]

/-- Claim C10: every parsed transfer size has width in `[1, 1024]` and
height in `[1, 512]` (zero fields decode to the maxima), so both
dimensions of every transfer cursor are nonzero, a VRAM-to-CPU blit
starts its cursor at `(row, col) = (0, 0)` with the parsed size, and a
cursor started that way reaches `Finished` after exactly
`width · height` pixel increments, i.e. `⌈width · height / 2⌉`
two-pixel words. -/
theorem transfer_cursor_termination :
    (∀ v : Nat,
      1 ≤ (parse_vram_size v).1 ∧ (parse_vram_size v).1 ≤ 1024 ∧
      1 ≤ (parse_vram_size v).2 ∧ (parse_vram_size v).2 ≤ 512 ∧
      (v &&& 0x3FF = 0 → (parse_vram_size v).1 = 1024) ∧
      ((v >>> 16) &&& 0x1FF = 0 → (parse_vram_size v).2 = 512)) ∧
    (∀ (gpu : Gpu) (w pos size : Nat),
      gpu.gp0.command_state = .WaitingForCommand → w >>> 29 = 6 →
      (feedWords gpu [w, pos, size]).map (fun g => g.gp0.command_state) =
        some (.SendingToCpu
          { destination_x := (parse_vram_position pos).1,
            destination_y := (parse_vram_position pos).2,
            x_size := (parse_vram_size size).1, y_size := (parse_vram_size size).2,
            row := 0, col := 0 })) ∧
    (∀ f : VramTransferFields, f.row = 0 → f.col = 0 →
      1 ≤ f.x_size → 1 ≤ f.y_size →
      stepsToFinish (f.x_size * f.y_size) f = some (f.x_size * f.y_size) ∧
      wordsToFinish ((f.x_size * f.y_size + 1) / 2) f = some ((f.x_size * f.y_size + 1) / 2)) := by
  refine ⟨?_, ?_, ?_⟩
  · intro v
    rw [parse_vram_size_fst, parse_vram_size_snd, and_mask_1023, and_mask_511]
    have h1 : (v + 1023) % 1024 < 1024 := Nat.mod_lt _ (by norm_num)
    have h2 : (v >>> 16 + 511) % 512 < 512 := Nat.mod_lt _ (by norm_num)
    refine ⟨by omega, by omega, by omega, by omega, ?_, ?_⟩ <;> intro h <;> omega
  · intro gpu w pos size hst h29
    simp [feedWords, Gpu.handle_gp0_write, hst, h29, Gp0CommandState.VRAM_TO_CPU_BLIT,
      Gpu.set_state, Gpu.set_param, updF, Gpu.execute_draw_command, PARAMETERS_LEN,
      parse_vram_position, parse_vram_size]
  · intro f h0 hc hx hy
    have hcomm : f.y_size * f.x_size = f.x_size * f.y_size := Nat.mul_comm _ _
    have hrem : remainingPixels f = f.x_size * f.y_size := by
      unfold remainingPixels
      rw [h0, hc]
      simp [Nat.mul_comm]
    have hcol : f.col < f.x_size := by omega
    have hrow : f.row < f.y_size := by omega
    constructor
    · rw [stepsToFinish_eq (f.x_size * f.y_size) f hcol hrow (by omega), hrem]
    · rw [wordsToFinish_eq ((f.x_size * f.y_size + 1) / 2) f hcol hrow (by omega), hrem]

/-- Claim C10 witness: a 2×2 cursor finishes after 4 increments and 2 words. -/
theorem c10_witness :
    stepsToFinish (2 * 2)
      { destination_x := 0, destination_y := 0, x_size := 2, y_size := 2, row := 0, col := 0 } =
      some (2 * 2) ∧
    wordsToFinish ((2 * 2 + 1) / 2)
      { destination_x := 0, destination_y := 0, x_size := 2, y_size := 2, row := 0, col := 0 } =
      some ((2 * 2 + 1) / 2) :=
  transfer_cursor_termination.2.2
    { destination_x := 0, destination_y := 0, x_size := 2, y_size := 2, row := 0, col := 0 }
    rfl rfl (by decide) (by decide)


end PS1
